import Mathlib

/-!
# clcloth: host-side orchestration of the OpenCL cloth solver

A shallow embedding of `src/clcloth/main.cpp` (classes `ClothSim` and `Cloth`, and the array reads
of `ClothRenderer::renderCloth` and `ClothRenderer::renderClothNormals`) together with the
constants of `src/clcloth/config.h`.

Modelling conventions.

* In `Cloth.init` and the states built from it `float` arithmetic is taken exactly, over `ℚ`
  (`vertex`). The same loop body with every operation rounded to `float` is `vertex32`; the two
  differ by rounding.
* `size_t` products (`size * size`, `size * size * sizeof(cl_float4)` in `Cloth::init`) are taken
  in `Nat`, without wrap-around: the buffers of that many bytes have to fit in memory.
* `int` arithmetic (the product `CLOTH_SIZE * CLOTH_SIZE` of `Cloth::transfer`, the indices of the
  renderer) is taken on 32 bits with wrap-around (`wrapInt`).
* A `cl_mem` handle is the index of a memory object in the context's list of memory objects.
* The command queue is created with properties `NULL`, that is in-order: the effect of a command
  on device memory is applied in enqueue order, and the model applies it when the command is
  enqueued. The field `commandQueue` records every command enqueued so far, oldest first.
* Every OpenCL call is taken to return `CL_SUCCESS`, so the `assert(!error)` lines never fire. The
  one assertion that depends on the program's own data, line 262 of `main.cpp`, is modelled, with
  assertions enabled (no `NDEBUG`).
-/

namespace ClCloth

/-! ## Data model -/

/-- The OpenCL host type `cl_float4`: the four components `s[0]`, `s[1]`, `s[2]`, `s[3]`. -/
structure cl_float4 where
  s0 : ℚ
  s1 : ℚ
  s2 : ℚ
  s3 : ℚ
deriving DecidableEq

/-- The value of `sizeof(cl_float4)`. -/
def sizeof_cl_float4 : Nat := 16

/-- A value-initialised `cl_float4`, as `std::vector::resize` appends it. -/
def cl_float4.zero : cl_float4 := ⟨0, 0, 0, 0⟩

/-- The macros of `config.h` that the host code and the solver read. -/
structure Config where
  CLOTH_SIZE : Nat
  SOLVER_ITERATIONS : Int
  SOLVER_DAMPING : ℚ
  BLOCK_SIZE : Nat
  SOLVER_TIMESTEP : ℚ
  SOLVER_GRAVITY : ℚ
  CLOTH_START_X : ℚ
  CLOTH_START_Y : ℚ
  CLOTH_START_Z : ℚ
  CLOTH_SCALE : ℚ
  BORDER : Nat

/-- The configuration that `config.h` selects (the block under `#if 1`, GPU device settings). -/
def config : Config where
  CLOTH_SIZE := 128
  SOLVER_ITERATIONS := 9
  SOLVER_DAMPING := 2 / 100
  BLOCK_SIZE := 8
  SOLVER_TIMESTEP := 1 / 60
  SOLVER_GRAVITY := -277 / 10
  CLOTH_START_X := 7 / 10
  CLOTH_START_Y := 7 / 10
  CLOTH_START_Z := 141 / 10
  CLOTH_SCALE := 32
  BORDER := 2

/-- The macro `TEMP_SIZE` of `config.h`. -/
def TEMP_SIZE (cfg : Config) : Nat := cfg.BLOCK_SIZE + 2 * cfg.BORDER

/-- A `cl_mem` handle: the index of the memory object in the context. -/
abbrev cl_mem := Nat

/-- The two `cl_mem_flags` values that `Cloth::init` passes to `clCreateBuffer`. -/
inductive MemFlags where
  | CL_MEM_COPY_HOST_PTR
  | CL_MEM_WRITE_ONLY
deriving DecidableEq

/-- A memory object of the context. `data` is `none` while the buffer holds nothing defined
(created without a host pointer and not yet written by a kernel). -/
structure MemObject where
  flags : MemFlags
  size : Nat
  data : Option (List cl_float4)
  released : Bool
deriving DecidableEq

/-- A value passed to `clSetKernelArg`: a memory object, or a size of local memory (a `NULL`
argument value). -/
inductive KernelArg where
  | mem (m : cl_mem)
  | localMem (bytes : Nat)
deriving DecidableEq

/-- The kernel functions that `ClothSim::init` asks `clCreateKernel` for, by name:
`"advance"`, `"constrain"`, `"timeStep"`, `"calculateNormals"`. -/
inductive KernelFn where
  | advance
  | constrain
  | timeStep
  | calculateNormals
deriving DecidableEq

/-- A kernel object: the function it was created from and the arguments set so far. -/
structure cl_kernel where
  fn : KernelFn
  args : List (Option KernelArg)
deriving DecidableEq

/-- A command in the command queue. A kernel dispatch holds the kernel as it was when enqueued,
since OpenCL reads the argument values at enqueue time. -/
inductive Command where
  | ndrange (kernel : cl_kernel) (dimensions : List Nat) (groupSizes : List Nat)
  | readBuffer (buffer : cl_mem) (bytes : Nat)
  | finish
deriving DecidableEq

/-- The class `ClothSim`: the context (its memory objects), the command queue and the five
kernel objects. -/
structure ClothSim where
  context : List MemObject
  commandQueue : List Command
  advanceKernel : cl_kernel
  constrainEvenKernel : cl_kernel
  constrainOddKernel : cl_kernel
  stepKernel : cl_kernel
  normalsKernel : cl_kernel

/-- The class `Cloth`. -/
structure Cloth where
  sim : ClothSim
  result : List cl_float4
  normalsResult : List cl_float4
  oldPositions : cl_mem
  positions : cl_mem
  newPositions : cl_mem
  normals : cl_mem

/-- The state in which the program stops when an `assert` fails, and the line of the `assert`. -/
structure Abort where
  line : Nat
  cloth : Cloth

/-! ## The device program -/

/-- Modelled from the spec: the device program `kernel.cl`, which is not among the sources. The
spec gives the four routines as pure functions of their buffer arguments:
`advance(previous, current) -> provisional`, `bookkeep(current) -> previous`,
`relax(source, destination) -> destination`, `estimateNormals(current) -> normals`. -/
structure Program where
  advance : List cl_float4 → List cl_float4 → List cl_float4
  timeStep : List cl_float4 → List cl_float4
  constrain : List cl_float4 → List cl_float4
  calculateNormals : List cl_float4 → List cl_float4

/-- Modelled from the spec: the argument positions a kernel function reads, from the routine
signatures of the spec and the order in which `Cloth::init` binds the buffers
(`advance`: previous, current; `timeStep`: current, bound second; `constrain`: source, bound
first; `calculateNormals`: current, bound first). -/
def KernelFn.reads : KernelFn → List Nat
  | .advance => [0, 1]
  | .timeStep => [1]
  | .constrain => [0]
  | .calculateNormals => [0]

/-- Modelled from the spec: the argument position a kernel function writes
(`advance`: provisional; `timeStep`: previous, bound first; `constrain`: destination;
`calculateNormals`: normals). -/
def KernelFn.writes : KernelFn → Nat
  | .advance => 2
  | .timeStep => 0
  | .constrain => 1
  | .calculateNormals => 1

/-- The memory object bound at position `i` of a kernel, if one is. -/
def cl_kernel.argMem (k : cl_kernel) (i : Nat) : Option cl_mem :=
  match k.args.get? i with
  | some (some (KernelArg.mem m)) => some m
  | _ => none

/-- The contents of a memory object (empty when there is none). -/
def readMem (context : List MemObject) (m : cl_mem) : List cl_float4 :=
  match context.get? m with
  | some o => o.data.getD []
  | none => []

/-- Overwrite the contents of a memory object. -/
def writeMem (context : List MemObject) (m : cl_mem) (d : List cl_float4) : List MemObject :=
  match context.get? m with
  | some o => context.set m { o with data := some d }
  | none => context

/-- The routine of the program that a kernel function names, applied to the contents of the
buffers it reads, in the order of `KernelFn.reads`. -/
def Program.run (P : Program) : KernelFn → List (List cl_float4) → List cl_float4
  | .advance, [previous, current] => P.advance previous current
  | .timeStep, [current] => P.timeStep current
  | .constrain, [source] => P.constrain source
  | .calculateNormals, [current] => P.calculateNormals current
  | _, _ => []

/-- The value a kernel computes from the buffers it reads. -/
def runKernelFn (P : Program) (k : cl_kernel) (context : List MemObject) : List cl_float4 :=
  P.run k.fn (k.fn.reads.map (fun i => readMem context ((k.argMem i).getD context.length)))

/-- The effect of one kernel dispatch on device memory: the computed value lands in the buffer
bound at the position the kernel writes. -/
def runKernel (P : Program) (k : cl_kernel) (context : List MemObject) : List MemObject :=
  match k.argMem k.fn.writes with
  | some dst => writeMem context dst (runKernelFn P k context)
  | none => context

/-! ## OpenCL calls -/

/-- The call `clCreateBuffer(context, flags, size, host_ptr, &error)`: a new memory object, which
holds a copy of the first `size` bytes of the host array when a host pointer is given. -/
def clCreateBuffer (sim : ClothSim) (flags : MemFlags) (size : Nat)
    (host_ptr : Option (List cl_float4)) : cl_mem × ClothSim :=
  (sim.context.length,
    { sim with context := sim.context ++
        [{ flags := flags, size := size,
           data := host_ptr.map (fun h => h.take (size / sizeof_cl_float4)),
           released := false }] })

/-- The call `clSetKernelArg(kernel, arg_index, arg_size, arg_value)`. -/
def clSetKernelArg (k : cl_kernel) (arg_index : Nat) (v : KernelArg) : cl_kernel :=
  { k with args :=
      (k.args ++ List.replicate (arg_index + 1 - k.args.length) none).set arg_index (some v) }

/-- The call `clReleaseMemObject(memobj)`. -/
def clReleaseMemObject (sim : ClothSim) (m : cl_mem) : ClothSim :=
  match sim.context.get? m with
  | some o => { sim with context := sim.context.set m { o with released := true } }
  | none => sim

/-- The call `clEnqueueNDRangeKernel(commandQueue, kernel, 2, NULL, dimensions, groupSizes, ...)`. -/
def clEnqueueNDRangeKernel (P : Program) (sim : ClothSim) (k : cl_kernel)
    (dimensions groupSizes : List Nat) : ClothSim :=
  { sim with
    commandQueue := sim.commandQueue ++ [Command.ndrange k dimensions groupSizes]
    context := runKernel P k sim.context }

/-- The call `clFinish(commandQueue)`. -/
def clFinish (sim : ClothSim) : ClothSim :=
  { sim with commandQueue := sim.commandQueue ++ [Command.finish] }

/-! ## ClothSim -/

/-- The method `ClothSim::init`: an empty context and queue, and the five kernel objects, none
with an argument set. -/
def ClothSim.init : ClothSim where
  context := []
  commandQueue := []
  advanceKernel := ⟨KernelFn.advance, []⟩
  constrainEvenKernel := ⟨KernelFn.constrain, []⟩
  constrainOddKernel := ⟨KernelFn.constrain, []⟩
  stepKernel := ⟨KernelFn.timeStep, []⟩
  normalsKernel := ⟨KernelFn.calculateNormals, []⟩

/-! ## Cloth -/

/-- The constructor `Cloth::Cloth(sim)`: empty host arrays. The four `cl_mem` members are not
initialised by the constructor; they are given the value 0 here. -/
def Cloth.new (sim : ClothSim) : Cloth where
  sim := sim
  result := []
  normalsResult := []
  oldPositions := 0
  positions := 0
  newPositions := 0
  normals := 0

/-- The call `std::vector<cl_float4>::resize(n)`. -/
def resize (v : List cl_float4) (n : Nat) : List cl_float4 :=
  v.take n ++ List.replicate (n - v.length) cl_float4.zero

/-- The body of the loop of `Cloth::init` (lines 194 to 197): the value stored in `result[i]`,
in exact arithmetic. -/
def vertex (cfg : Config) (i : Nat) : cl_float4 where
  s0 := ((i % cfg.CLOTH_SIZE : Nat) : ℚ) / (cfg.CLOTH_SIZE : ℚ) * cfg.CLOTH_SCALE
          - (1 / 2) * cfg.CLOTH_SCALE + cfg.CLOTH_START_X
  s1 := ((i / cfg.CLOTH_SIZE : Nat) : ℚ) / (cfg.CLOTH_SIZE : ℚ) * cfg.CLOTH_SCALE
          - (1 / 2) * cfg.CLOTH_SCALE + cfg.CLOTH_START_Y
  s2 := cfg.CLOTH_START_Z
  s3 := 1

/-- The loop of `Cloth::init` (lines 192 to 198), over `i = 0, ..., result.size() - 1`. -/
def initLoop (cfg : Config) (result : List cl_float4) : List cl_float4 :=
  (List.range result.length).foldl (fun r i => r.set i (vertex cfg i)) result

/-- The method `Cloth::init`. -/
def Cloth.init (cfg : Config) (c : Cloth) : Cloth :=
  let size := cfg.CLOTH_SIZE
  let result := initLoop cfg (resize c.result (size * size))
  let normalsResult := resize c.normalsResult (size * size)
  let verticesSize := size * size * sizeof_cl_float4
  let (oldPositions, sim) :=
    clCreateBuffer c.sim MemFlags.CL_MEM_COPY_HOST_PTR verticesSize (some result)
  let (positions, sim) :=
    clCreateBuffer sim MemFlags.CL_MEM_COPY_HOST_PTR verticesSize (some result)
  let (newPositions, sim) := clCreateBuffer sim MemFlags.CL_MEM_WRITE_ONLY verticesSize none
  let (normals, sim) := clCreateBuffer sim MemFlags.CL_MEM_WRITE_ONLY verticesSize none
  let advanceKernel := clSetKernelArg sim.advanceKernel 0 (KernelArg.mem oldPositions)
  let advanceKernel := clSetKernelArg advanceKernel 1 (KernelArg.mem positions)
  let advanceKernel := clSetKernelArg advanceKernel 2 (KernelArg.mem newPositions)
  let constrainEvenKernel := clSetKernelArg sim.constrainEvenKernel 0 (KernelArg.mem newPositions)
  let constrainEvenKernel := clSetKernelArg constrainEvenKernel 1 (KernelArg.mem positions)
  let constrainEvenKernel := clSetKernelArg constrainEvenKernel 2
    (KernelArg.localMem (sizeof_cl_float4 * TEMP_SIZE cfg * TEMP_SIZE cfg))
  let constrainOddKernel := clSetKernelArg sim.constrainOddKernel 0 (KernelArg.mem positions)
  let constrainOddKernel := clSetKernelArg constrainOddKernel 1 (KernelArg.mem newPositions)
  let constrainOddKernel := clSetKernelArg constrainOddKernel 2
    (KernelArg.localMem (sizeof_cl_float4 * TEMP_SIZE cfg * TEMP_SIZE cfg))
  let stepKernel := clSetKernelArg sim.stepKernel 0 (KernelArg.mem oldPositions)
  let stepKernel := clSetKernelArg stepKernel 1 (KernelArg.mem positions)
  let normalsKernel := clSetKernelArg sim.normalsKernel 0 (KernelArg.mem positions)
  let normalsKernel := clSetKernelArg normalsKernel 1 (KernelArg.mem normals)
  { sim := { sim with
      advanceKernel := advanceKernel
      constrainEvenKernel := constrainEvenKernel
      constrainOddKernel := constrainOddKernel
      stepKernel := stepKernel
      normalsKernel := normalsKernel }
    result := result
    normalsResult := normalsResult
    oldPositions := oldPositions
    positions := positions
    newPositions := newPositions
    normals := normals }

/-- The method `Cloth::uninit`. -/
def Cloth.uninit (c : Cloth) : Cloth :=
  let sim := clReleaseMemObject c.sim c.oldPositions
  let sim := clReleaseMemObject sim c.positions
  let sim := clReleaseMemObject sim c.newPositions
  let sim := clReleaseMemObject sim c.normals
  { c with result := [], sim := sim }

/-- The kernel that pass `i` of the loop of `Cloth::step` selects (lines 265 and 266). -/
def passKernel (sim : ClothSim) (i : Nat) : cl_kernel :=
  let even := i % 2 == 0
  if even then sim.constrainEvenKernel else sim.constrainOddKernel

/-- The statement `error = clEnqueueNDRangeKernel(sim.commandQueue, kernel, 2, NULL, dimensions,
groupSizes, 0, NULL, NULL);` of `Cloth::step`, with `dimensions` and `groupSizes` as lines 255
and 256 set them. -/
def Cloth.dispatch (P : Program) (cfg : Config) (c : Cloth) (kernel : cl_kernel) : Cloth :=
  let dimensions := [cfg.CLOTH_SIZE, cfg.CLOTH_SIZE]
  let groupSizes := [cfg.BLOCK_SIZE, cfg.BLOCK_SIZE]
  { c with sim := clEnqueueNDRangeKernel P c.sim kernel dimensions groupSizes }

/-- The body of the loop of `Cloth::step` (lines 265 to 268), for pass `i`. -/
def constrainPass (P : Program) (cfg : Config) (c : Cloth) (i : Nat) : Cloth :=
  let kernel := passKernel c.sim i
  c.dispatch P cfg kernel

/-- The method `Cloth::step`. The loop `for (int i = 0; i != SOLVER_ITERATIONS; ++i)` is entered
only after the assertion of line 262, hence with a positive count, and runs that many times. -/
def Cloth.step (P : Program) (cfg : Config) (c : Cloth) : Except Abort Cloth :=
  let c := c.dispatch P cfg c.sim.advanceKernel
  let c := c.dispatch P cfg c.sim.stepKernel
  if Int.tmod cfg.SOLVER_ITERATIONS 2 ≠ 1 then Except.error ⟨262, c⟩
  else
    let c := (List.range cfg.SOLVER_ITERATIONS.toNat).foldl (constrainPass P cfg) c
    let c := c.dispatch P cfg c.sim.normalsKernel
    Except.ok { c with sim := clFinish c.sim }

/-- The value of an `int` expression whose exact value is `z`: 32 bits, two's complement. Signed
overflow is undefined in C++; the wrap-around that compilers produce is taken. -/
def wrapInt (z : Int) : Int := (z + 2147483648) % 4294967296 - 2147483648

/-- The conversion of an `int` to `size_t` (64 bits). -/
def toSizeT (z : Int) : Nat := (z % 18446744073709551616).toNat

/-- The value of `verticesSize` in `Cloth::transfer` (line 280): `CLOTH_SIZE * CLOTH_SIZE` is a
product of two `int`, which is converted to `size_t` and multiplied by `sizeof(cl_float4)`. -/
def transferSize (cfg : Config) : Nat :=
  (toSizeT (wrapInt ((cfg.CLOTH_SIZE : Int) * (cfg.CLOTH_SIZE : Int))) * sizeof_cl_float4)
    % 18446744073709551616

/-- Write `src` through a pointer to the first element of the host array: the elements of `src`
replace the first elements of `host`, whose size does not change. -/
def copyOver (src host : List cl_float4) : List cl_float4 :=
  (src ++ host.drop src.length).take host.length

/-- The call `clEnqueueReadBuffer(commandQueue, buffer, CL_FALSE, 0, bytes, host, ...)`: the
command is recorded and the first `bytes` bytes of the buffer are written over the beginning of
the host array. The returned list is the host array; it is left as it is when the buffer holds
nothing defined. -/
def clEnqueueReadBuffer (sim : ClothSim) (buffer : cl_mem) (bytes : Nat)
    (host : List cl_float4) : ClothSim × List cl_float4 :=
  ({ sim with commandQueue := sim.commandQueue ++ [Command.readBuffer buffer bytes] },
    match (sim.context.get? buffer).bind (fun o => o.data) with
    | some d => copyOver (d.take (bytes / sizeof_cl_float4)) host
    | none => host)

/-- The method `Cloth::transfer`. -/
def Cloth.transfer (cfg : Config) (c : Cloth) : Cloth :=
  let verticesSize := transferSize cfg
  let (sim, result) := clEnqueueReadBuffer c.sim c.positions verticesSize c.result
  let (sim, normalsResult) := clEnqueueReadBuffer sim c.normals verticesSize c.normalsResult
  { c with sim := clFinish sim, result := result, normalsResult := normalsResult }

/-- The first two statements of `Cloth::reset`: `uninit(); init();`. -/
def Cloth.rebuild (cfg : Config) (c : Cloth) : Cloth :=
  Cloth.init cfg (Cloth.uninit c)

/-- The method `Cloth::reset`: `uninit(); init(); step(); transfer();`. -/
def Cloth.reset (P : Program) (cfg : Config) (c : Cloth) : Except Abort Cloth :=
  (Cloth.step P cfg (Cloth.rebuild cfg c)).map (Cloth.transfer cfg)

/-- A call of the public interface of `Cloth` made by the renderer after `Cloth::init`. -/
inductive Call where
  | step
  | transfer
  | reset
deriving DecidableEq

/-- Run one call. -/
def Cloth.call (P : Program) (cfg : Config) (c : Cloth) : Call → Except Abort Cloth
  | Call.step => Cloth.step P cfg c
  | Call.transfer => Except.ok (Cloth.transfer cfg c)
  | Call.reset => Cloth.reset P cfg c

/-- Run a history of calls, oldest first; the program stops at the first failed assertion. -/
def Cloth.run (P : Program) (cfg : Config) : List Call → Cloth → Except Abort Cloth
  | [], c => Except.ok c
  | x :: h, c =>
    match Cloth.call P cfg c x with
    | Except.ok c1 => Cloth.run P cfg h c1
    | Except.error a => Except.error a

/-! ## Reading the command queue -/

/-- The kernel function a command dispatches, if it is a dispatch. -/
def Command.kernelFn : Command → Option KernelFn
  | Command.ndrange k _ _ => some k.fn
  | _ => none

/-- The commands enqueued between two states of the same queue. -/
def enqueuedBetween (before after : Cloth) : List Command :=
  after.sim.commandQueue.drop before.sim.commandQueue.length

/-- The contents of a buffer of a cloth. -/
def Cloth.buffer (c : Cloth) (m : cl_mem) : Option (List cl_float4) :=
  (c.sim.context.get? m).bind (fun o => o.data)


/-! ## Definitions used to state the properties -/

/-- The analytic flat sheet: the value of `vertex` at the indices `0, ..., N * N - 1`. -/
def layout (cfg : Config) : List cl_float4 :=
  (List.range (cfg.CLOTH_SIZE * cfg.CLOTH_SIZE)).map (vertex cfg)

/-- The memory object a kernel argument value names. -/
def KernelArg.toMem : KernelArg → Option cl_mem
  | KernelArg.mem m => some m
  | KernelArg.localMem _ => none

/-- The kernel objects are the ones `ClothSim::init` created: each field holds a kernel of the
function it was created from. -/
def ClothSim.kernelsCreated (sim : ClothSim) : Prop :=
  sim.advanceKernel.fn = KernelFn.advance ∧ sim.constrainEvenKernel.fn = KernelFn.constrain ∧
  sim.constrainOddKernel.fn = KernelFn.constrain ∧ sim.stepKernel.fn = KernelFn.timeStep ∧
  sim.normalsKernel.fn = KernelFn.calculateNormals

instance (sim : ClothSim) : Decidable sim.kernelsCreated := by
  unfold ClothSim.kernelsCreated
  infer_instance

/-- The memory object that `Cloth::init` creates for `oldPositions` and for `positions`. -/
def sheetObject (cfg : Config) : MemObject where
  flags := MemFlags.CL_MEM_COPY_HOST_PTR
  size := cfg.CLOTH_SIZE * cfg.CLOTH_SIZE * sizeof_cl_float4
  data := some (layout cfg)
  released := false

/-- The memory object that `Cloth::init` creates for `newPositions` and for `normals`. -/
def scratchObject (cfg : Config) : MemObject where
  flags := MemFlags.CL_MEM_WRITE_ONLY
  size := cfg.CLOTH_SIZE * cfg.CLOTH_SIZE * sizeof_cl_float4
  data := none
  released := false

/-- The dispatch that pass `i` of the loop of `Cloth::step` enqueues. -/
def passCommand (cfg : Config) (sim : ClothSim) (i : Nat) : Command :=
  Command.ndrange (passKernel sim i) [cfg.CLOTH_SIZE, cfg.CLOTH_SIZE]
    [cfg.BLOCK_SIZE, cfg.BLOCK_SIZE]

/-- The commands of one complete `Cloth::step`, in order. -/
def stepCommands (cfg : Config) (sim : ClothSim) : List Command :=
  [Command.ndrange sim.advanceKernel [cfg.CLOTH_SIZE, cfg.CLOTH_SIZE]
      [cfg.BLOCK_SIZE, cfg.BLOCK_SIZE],
    Command.ndrange sim.stepKernel [cfg.CLOTH_SIZE, cfg.CLOTH_SIZE]
      [cfg.BLOCK_SIZE, cfg.BLOCK_SIZE]]
  ++ (List.range cfg.SOLVER_ITERATIONS.toNat).map (passCommand cfg sim)
  ++ [Command.ndrange sim.normalsKernel [cfg.CLOTH_SIZE, cfg.CLOTH_SIZE]
      [cfg.BLOCK_SIZE, cfg.BLOCK_SIZE], Command.finish]

/-- The kernel objects of two states of the simulation are the same. -/
def sameKernels (s t : ClothSim) : Prop :=
  t.advanceKernel = s.advanceKernel ∧ t.constrainEvenKernel = s.constrainEvenKernel ∧
  t.constrainOddKernel = s.constrainOddKernel ∧ t.stepKernel = s.stepKernel ∧
  t.normalsKernel = s.normalsKernel

/-- The four buffer handles of two states of the cloth are the same. -/
def sameHandles (c d : Cloth) : Prop :=
  d.oldPositions = c.oldPositions ∧ d.positions = c.positions ∧
  d.newPositions = c.newPositions ∧ d.normals = c.normals

/-- The state a program starts from: `ClothSim::init` and the constructor of `Cloth`. -/
def Cloth.fresh : Cloth := Cloth.new ClothSim.init

/-- The configuration of `config.h` with another pass count and another grid size. -/
def configWith (size : Nat) (iterations : Int) : Config :=
  { config with CLOTH_SIZE := size, SOLVER_ITERATIONS := iterations }

/-- A program whose relaxation and normal routines copy their input, whose bookkeeper copies
Current and whose integrator returns Current: enough to run the host code on. -/
def copyProgram : Program where
  advance := fun _ current => current
  timeStep := fun current => current
  constrain := fun source => source
  calculateNormals := fun current => current

/-- The dispatch of a kernel by `Cloth::step`. -/
def dispatchCommand (cfg : Config) (k : cl_kernel) : Command :=
  Command.ndrange k [cfg.CLOTH_SIZE, cfg.CLOTH_SIZE] [cfg.BLOCK_SIZE, cfg.BLOCK_SIZE]

/-- The example scenario of the spec: a 4 x 4 grid of scale 3, flat at z = 10, gravity 9.8,
time step 1/60, no damping, one relaxation pass; the other macros as in `config.h` (block size of
the CPU setting). -/
def scenario : Config :=
  { config with
    CLOTH_SIZE := 4
    SOLVER_ITERATIONS := 1
    SOLVER_DAMPING := 0
    BLOCK_SIZE := 1
    SOLVER_GRAVITY := -98 / 10
    CLOTH_START_Z := 10
    CLOTH_SCALE := 3 }

/-- Modelled from the spec: the Integrator on one particle,
`provisional = current + (current - previous) * (1 - damping) + gravity_vector * dt²`,
component by component. The spec does not give the axis of the gravity vector; it is a
parameter. -/
def integrate (damping dt : ℚ) (g previous current : cl_float4) : cl_float4 where
  s0 := current.s0 + (current.s0 - previous.s0) * (1 - damping) + g.s0 * dt ^ 2
  s1 := current.s1 + (current.s1 - previous.s1) * (1 - damping) + g.s1 * dt ^ 2
  s2 := current.s2 + (current.s2 - previous.s2) * (1 - damping) + g.s2 * dt ^ 2
  s3 := current.s3 + (current.s3 - previous.s3) * (1 - damping) + g.s3 * dt ^ 2

/-- Modelled from the spec: the device program with the Integrator and the Bookkeeper
(`previous := current`) of the spec; the relaxation and normal routines, which the spec does not
fix, are parameters. -/
def specProgram (cfg : Config) (g : cl_float4)
    (constrain calculateNormals : List cl_float4 → List cl_float4) : Program where
  advance := fun previous current =>
    List.zipWith (integrate cfg.SOLVER_DAMPING cfg.SOLVER_TIMESTEP g) previous current
  timeStep := fun current => current
  constrain := constrain
  calculateNormals := calculateNormals

/-- The first two dispatches of `Cloth::step` (lines 257 to 260): the Integrator, then the
Bookkeeper. -/
def integratorThenBookkeeper (P : Program) (cfg : Config) (c : Cloth) : Cloth :=
  let c := c.dispatch P cfg c.sim.advanceKernel
  c.dispatch P cfg c.sim.stepKernel

/-- The same two dispatches in the other order: the Bookkeeper, then the Integrator. -/
def bookkeeperThenIntegrator (P : Program) (cfg : Config) (c : Cloth) : Cloth :=
  let c := c.dispatch P cfg c.sim.stepKernel
  c.dispatch P cfg c.sim.advanceKernel

/-- The cloth with the contents of one buffer replaced. -/
def Cloth.store (c : Cloth) (m : cl_mem) (d : List cl_float4) : Cloth :=
  { c with sim := { c.sim with context := writeMem c.sim.context m d } }

/-- The cloth after `Cloth::init`, with given contents in `oldPositions` and `positions`. -/
def Cloth.withSheets (cfg : Config) (c0 : Cloth) (previous current : List cl_float4) : Cloth :=
  ((Cloth.init cfg c0).store (Cloth.init cfg c0).oldPositions previous).store
    (Cloth.init cfg c0).positions current

/-- The example scenario of the spec on a grid of one particle. -/
def oneParticle : Config := { scenario with CLOTH_SIZE := 1 }

/-- The gravity vector of the example scenario, taken along z. -/
def scenarioGravity : cl_float4 := ⟨0, 0, scenario.SOLVER_GRAVITY, 0⟩

/-- A read by the renderer in one of the two arrays that `getVertices` and `getNormals`
return, at an index that is the value of an `int` expression. -/
inductive Access where
  | vertices (index : Int)
  | normals (index : Int)
deriving DecidableEq

/-- The index an access reads at. -/
def Access.index : Access → Int
  | Access.vertices i => i
  | Access.normals i => i

/-- The access falls inside the array it reads: `result` for the vertices, `normalsResult` for
the normals. -/
def Access.inBounds (c : Cloth) : Access → Prop
  | Access.vertices i => 0 ≤ i ∧ i < (c.result.length : Int)
  | Access.normals i => 0 ≤ i ∧ i < (c.normalsResult.length : Int)

/-- The values the counter takes in `for (int x = 0; x != bound; ++x)`. With a negative bound the
counter never meets the bound and the loop does not end. -/
def forLoop (bound : Int) : Option (List Nat) :=
  if 0 ≤ bound then some (List.range bound.toNat) else none

/-- The product of two `int`. -/
def intMul (a b : Int) : Int := wrapInt (a * b)

/-- The sum of two `int`. -/
def intAdd (a b : Int) : Int := wrapInt (a + b)

/-- The array reads of the body of the loops of `ClothRenderer::renderCloth` (lines 572 to 579),
in order, at the indices `x * CLOTH_SIZE + y`, `(x + 1) * CLOTH_SIZE + y`,
`(x + 1) * CLOTH_SIZE + y + 1` and `x * CLOTH_SIZE + y + 1`, each computed in `int`. -/
def renderClothQuad (cfg : Config) (x y : Nat) : List Access :=
  [Access.normals (intAdd (intMul x cfg.CLOTH_SIZE) y),
    Access.vertices (intAdd (intMul x cfg.CLOTH_SIZE) y),
    Access.normals (intAdd (intMul (intAdd x 1) cfg.CLOTH_SIZE) y),
    Access.vertices (intAdd (intMul (intAdd x 1) cfg.CLOTH_SIZE) y),
    Access.normals (intAdd (intAdd (intMul (intAdd x 1) cfg.CLOTH_SIZE) y) 1),
    Access.vertices (intAdd (intAdd (intMul (intAdd x 1) cfg.CLOTH_SIZE) y) 1),
    Access.normals (intAdd (intAdd (intMul x cfg.CLOTH_SIZE) y) 1),
    Access.vertices (intAdd (intAdd (intMul x cfg.CLOTH_SIZE) y) 1)]

/-- The method `ClothRenderer::renderCloth`, as the list of its array reads: both loops run
while the counter differs from `CLOTH_SIZE - 1`. The OpenGL calls and the choice of the colour,
which read neither array, are left out. -/
def ClothRenderer.renderCloth (cfg : Config) : Option (List Access) :=
  match forLoop ((cfg.CLOTH_SIZE : Int) - 1), forLoop ((cfg.CLOTH_SIZE : Int) - 1) with
  | some xs, some ys =>
    some (xs.flatMap (fun x => ys.flatMap (fun y => renderClothQuad cfg x y)))
  | _, _ => none

/-- The array reads of the body of the loops of `ClothRenderer::renderClothNormals` (lines 596
and 597), at the index `x * CLOTH_SIZE + y` computed in `int`. -/
def renderClothNormalsLine (cfg : Config) (x y : Nat) : List Access :=
  [Access.vertices (intAdd (intMul x cfg.CLOTH_SIZE) y),
    Access.normals (intAdd (intMul x cfg.CLOTH_SIZE) y)]

/-- The method `ClothRenderer::renderClothNormals`, as the list of its array reads: both loops
run while the counter differs from `CLOTH_SIZE`. -/
def ClothRenderer.renderClothNormals (cfg : Config) : Option (List Access) :=
  match forLoop (cfg.CLOTH_SIZE : Int), forLoop (cfg.CLOTH_SIZE : Int) with
  | some xs, some ys =>
    some (xs.flatMap (fun x => ys.flatMap (fun y => renderClothNormalsLine cfg x y)))
  | _, _ => none

/-- A value of the type `float` (IEEE 754 binary32): the number `m * 2 ^ e`. The range of the
exponent, infinities and NaN are not represented. -/
structure Binary32 where
  m : Int
  e : Int
deriving DecidableEq

/-- The number a `float` stands for. -/
def Binary32.toRat (f : Binary32) : ℚ := (f.m : ℚ) * (2 : ℚ) ^ f.e

/-- The position of the leading bit of `n`, for `n` below `2 ^ fuel`. -/
def log2Fuel : Nat → Nat → Nat
  | 0, _ => 0
  | fuel + 1, n => if n < 2 then 0 else log2Fuel fuel (n / 2) + 1

/-- The `float` nearest to `n / d * 2 ^ e` (24 significant bits, ties to the even one): the
rounding every `float` operation ends with. -/
def Binary32.round (n : Int) (d : Nat) (e : Int) : Binary32 :=
  let a := n.natAbs
  if a = 0 ∨ d = 0 then ⟨0, 0⟩ else
  let k0 : Int := (log2Fuel 256 a : Int) - (log2Fuel 256 d : Int) + e - 23
  let p0 := a * 2 ^ (e - k0).toNat
  let q0 := d * 2 ^ (k0 - e).toNat
  let k := if 2 ^ 23 * q0 ≤ p0 then k0 else k0 - 1
  let p := a * 2 ^ (e - k).toNat
  let q := d * 2 ^ (k - e).toNat
  let f := p / q
  let r := p % q
  let mant := if 2 * r < q then f else if q < 2 * r then f + 1 else if f % 2 = 0 then f else f + 1
  ⟨if n < 0 then -(mant : Int) else (mant : Int), k⟩

/-- The `float` literal written as the decimal `n / d`, such as `0.7f`. -/
def Binary32.ofFrac (n : Int) (d : Nat) : Binary32 := Binary32.round n d 0

/-- The conversion of a `size_t` to `float`. -/
def Binary32.ofNat (n : Nat) : Binary32 := Binary32.round n 1 0

/-- The quotient of two `float`. -/
def Binary32.div (a b : Binary32) : Binary32 :=
  Binary32.round (a.m * b.m.sign) b.m.natAbs (a.e - b.e)

/-- The product of two `float`. -/
def Binary32.mul (a b : Binary32) : Binary32 := Binary32.round (a.m * b.m) 1 (a.e + b.e)

/-- The sum of two `float`. -/
def Binary32.add (a b : Binary32) : Binary32 :=
  Binary32.round (a.m * 2 ^ (a.e - min a.e b.e).toNat + b.m * 2 ^ (b.e - min a.e b.e).toNat) 1
    (min a.e b.e)

/-- The difference of two `float`. -/
def Binary32.sub (a b : Binary32) : Binary32 := Binary32.add a ⟨-b.m, b.e⟩

/-- The macros of `config.h` that the loop of `Cloth::init` reads, as the `float` values of their
literals. -/
structure FloatConfig where
  CLOTH_SIZE : Nat
  CLOTH_START_X : Binary32
  CLOTH_START_Y : Binary32
  CLOTH_START_Z : Binary32
  CLOTH_SCALE : Binary32

/-- The literals of `config.h`: `0.7f`, `0.7f`, `14.1f`, `32.0f`, with `CLOTH_SIZE` 128. -/
def config32 : FloatConfig where
  CLOTH_SIZE := 128
  CLOTH_START_X := Binary32.ofFrac 7 10
  CLOTH_START_Y := Binary32.ofFrac 7 10
  CLOTH_START_Z := Binary32.ofFrac 141 10
  CLOTH_SCALE := Binary32.ofFrac 32 1

/-- The example scenario of the spec (a 4 x 4 grid of scale 3, flat at z = 10), started at
`0.7f` as in `config.h`. -/
def scenario32 : FloatConfig where
  CLOTH_SIZE := 4
  CLOTH_START_X := Binary32.ofFrac 7 10
  CLOTH_START_Y := Binary32.ofFrac 7 10
  CLOTH_START_Z := Binary32.ofFrac 10 1
  CLOTH_SCALE := Binary32.ofFrac 3 1

/-- The same constants as exact numbers, the other macros as in `config.h`. -/
def FloatConfig.exact (c : FloatConfig) : Config :=
  { config with
    CLOTH_SIZE := c.CLOTH_SIZE
    CLOTH_START_X := c.CLOTH_START_X.toRat
    CLOTH_START_Y := c.CLOTH_START_Y.toRat
    CLOTH_START_Z := c.CLOTH_START_Z.toRat
    CLOTH_SCALE := c.CLOTH_SCALE.toRat }

/-- The value that line 194 of `Cloth::init` stores in `result[i].s[0]`, every operation of
`float(i % size) / size * CLOTH_SCALE - 0.5f * CLOTH_SCALE + CLOTH_START_X` rounded to
`float`. -/
def vertexX32 (cfg : FloatConfig) (i : Nat) : Binary32 :=
  Binary32.add
    (Binary32.sub
      (Binary32.mul
        (Binary32.div (Binary32.ofNat (i % cfg.CLOTH_SIZE)) (Binary32.ofNat cfg.CLOTH_SIZE))
        cfg.CLOTH_SCALE)
      (Binary32.mul (Binary32.ofFrac 1 2) cfg.CLOTH_SCALE))
    cfg.CLOTH_START_X

/-- The value that line 195 of `Cloth::init` stores in `result[i].s[1]`, every operation of
`float(i / size) / size * CLOTH_SCALE - 0.5f * CLOTH_SCALE + CLOTH_START_Y` rounded to
`float`. -/
def vertexY32 (cfg : FloatConfig) (i : Nat) : Binary32 :=
  Binary32.add
    (Binary32.sub
      (Binary32.mul
        (Binary32.div (Binary32.ofNat (i / cfg.CLOTH_SIZE)) (Binary32.ofNat cfg.CLOTH_SIZE))
        cfg.CLOTH_SCALE)
      (Binary32.mul (Binary32.ofFrac 1 2) cfg.CLOTH_SCALE))
    cfg.CLOTH_START_Y

/-- The body of the loop of `Cloth::init` (lines 194 to 197) in `float` arithmetic: the numbers
the four stored `float` stand for. The definition `vertex` is the same expression in exact
arithmetic. -/
def vertex32 (cfg : FloatConfig) (i : Nat) : cl_float4 where
  s0 := (vertexX32 cfg i).toRat
  s1 := (vertexY32 cfg i).toRat
  s2 := cfg.CLOTH_START_Z.toRat
  s3 := (Binary32.ofFrac 1 1).toRat

/-- The loop of `Cloth::init` (lines 192 to 198) in `float` arithmetic. -/
def initLoop32 (cfg : FloatConfig) (result : List cl_float4) : List cl_float4 :=
  (List.range result.length).foldl (fun r i => r.set i (vertex32 cfg i)) result

/-! # Properties -/

/-! ## The initial layout -/

theorem foldl_set_range (f : Nat → cl_float4) (n : Nat) (l : List cl_float4)
    (h : n ≤ l.length) :
    (List.range n).foldl (fun r i => r.set i (f i)) l = (List.range n).map f ++ l.drop n := by
  induction n with
  | zero => simp
  | succ n ih =>
    have hn : n < l.length := h
    rw [List.range_succ, List.foldl_append, ih (Nat.le_of_lt hn)]
    simp only [List.foldl_cons, List.foldl_nil, List.map_append, List.map_cons, List.map_nil]
    rw [List.set_append_right _ _ (by simp)]
    simp only [List.length_map, List.length_range, Nat.sub_self]
    rw [List.drop_eq_getElem_cons hn, List.set_cons_zero]
    simp

theorem length_resize (v : List cl_float4) (n : Nat) : (resize v n).length = n := by
  simp only [resize, List.length_append, List.length_take, List.length_replicate]
  omega

theorem initLoop_resize (cfg : Config) (v : List cl_float4) :
    initLoop cfg (resize v (cfg.CLOTH_SIZE * cfg.CLOTH_SIZE)) = layout cfg := by
  unfold initLoop
  rw [foldl_set_range _ _ _ (le_refl _), length_resize]
  simp [layout, List.drop_eq_nil_iff, length_resize]

theorem length_layout (cfg : Config) : (layout cfg).length = cfg.CLOTH_SIZE * cfg.CLOTH_SIZE := by
  simp [layout]

theorem layout_get? (cfg : Config) (i : Nat) (h : i < cfg.CLOTH_SIZE * cfg.CLOTH_SIZE) :
    (layout cfg).get? i = some (vertex cfg i) := by
  simp [layout, List.getElem?_range h]

/-! ## Kernel arguments -/

theorem argMem_clSetKernelArg (k : cl_kernel) (i j : Nat) (v : KernelArg) :
    (clSetKernelArg k i v).argMem j = if j = i then v.toMem else k.argMem j := by
  unfold cl_kernel.argMem clSetKernelArg
  simp only [List.get?_eq_getElem?]
  by_cases hji : j = i
  · subst hji
    rw [List.getElem?_set_self (by simp; omega)]
    cases v <;> simp [KernelArg.toMem]
  · rw [List.getElem?_set_ne (Ne.symm hji), if_neg hji]
    by_cases hj : j < k.args.length
    · rw [List.getElem?_append_left hj]
    · rw [List.getElem?_append_right (by omega)]
      have h1 : k.args[j]? = none := List.getElem?_eq_none (by omega)
      rw [h1]
      by_cases hj2 : j - k.args.length < i + 1 - k.args.length
      · rw [List.getElem?_replicate]
        simp [hj2]
      · rw [List.getElem?_eq_none (by simp; omega)]

theorem fn_clSetKernelArg (k : cl_kernel) (i : Nat) (v : KernelArg) :
    (clSetKernelArg k i v).fn = k.fn := rfl

/-! ## What `Cloth::init` leaves behind -/

theorem init_result (cfg : Config) (c : Cloth) : (Cloth.init cfg c).result = layout cfg := by
  simp [Cloth.init, initLoop_resize]

theorem init_normalsResult (cfg : Config) (c : Cloth) :
    (Cloth.init cfg c).normalsResult
      = resize c.normalsResult (cfg.CLOTH_SIZE * cfg.CLOTH_SIZE) := by
  simp [Cloth.init]

theorem init_oldPositions (cfg : Config) (c : Cloth) :
    (Cloth.init cfg c).oldPositions = c.sim.context.length := by
  simp [Cloth.init, clCreateBuffer]

theorem init_positions (cfg : Config) (c : Cloth) :
    (Cloth.init cfg c).positions = c.sim.context.length + 1 := by
  simp [Cloth.init, clCreateBuffer]

theorem init_newPositions (cfg : Config) (c : Cloth) :
    (Cloth.init cfg c).newPositions = c.sim.context.length + 2 := by
  simp [Cloth.init, clCreateBuffer]

theorem init_commandQueue (cfg : Config) (c : Cloth) :
    (Cloth.init cfg c).sim.commandQueue = c.sim.commandQueue := by
  simp [Cloth.init, clCreateBuffer]

theorem init_context (cfg : Config) (c : Cloth) :
    (Cloth.init cfg c).sim.context
      = c.sim.context ++ [sheetObject cfg, sheetObject cfg, scratchObject cfg, scratchObject cfg] := by
  have h : (layout cfg).take (cfg.CLOTH_SIZE * cfg.CLOTH_SIZE) = layout cfg :=
    List.take_of_length_le (by rw [length_layout])
  simp [Cloth.init, clCreateBuffer, initLoop_resize, sheetObject, scratchObject,
    sizeof_cl_float4, h]

theorem init_kernelsCreated (cfg : Config) (c : Cloth) (h : c.sim.kernelsCreated) :
    (Cloth.init cfg c).sim.kernelsCreated := by
  simpa [Cloth.init, clCreateBuffer, ClothSim.kernelsCreated, fn_clSetKernelArg] using h

theorem init_advanceKernel (cfg : Config) (c : Cloth) (i : Nat) :
    (Cloth.init cfg c).sim.advanceKernel.argMem i
      = if i = 2 then some (c.sim.context.length + 2)
        else if i = 1 then some (c.sim.context.length + 1)
        else if i = 0 then some c.sim.context.length
        else c.sim.advanceKernel.argMem i := by
  simp [Cloth.init, clCreateBuffer, argMem_clSetKernelArg, KernelArg.toMem]

theorem init_stepKernel (cfg : Config) (c : Cloth) (i : Nat) :
    (Cloth.init cfg c).sim.stepKernel.argMem i
      = if i = 1 then some (c.sim.context.length + 1)
        else if i = 0 then some c.sim.context.length
        else c.sim.stepKernel.argMem i := by
  simp [Cloth.init, clCreateBuffer, argMem_clSetKernelArg, KernelArg.toMem]

theorem foldl_constrainPass (P : Program) (cfg : Config) (c : Cloth) (n : Nat) :
    ((List.range n).foldl (constrainPass P cfg) c).sim.commandQueue
        = c.sim.commandQueue ++ (List.range n).map (passCommand cfg c.sim) ∧
    sameKernels c.sim ((List.range n).foldl (constrainPass P cfg) c).sim ∧
    sameHandles c ((List.range n).foldl (constrainPass P cfg) c) ∧
    ((List.range n).foldl (constrainPass P cfg) c).result = c.result ∧
    ((List.range n).foldl (constrainPass P cfg) c).normalsResult = c.normalsResult := by
  induction n with
  | zero => simp [sameKernels, sameHandles]
  | succ n ih =>
    obtain ⟨hq, ⟨k1, k2, k3, k4, k5⟩, ⟨h1, h2, h3, h4⟩, hr, hn⟩ := ih
    rw [List.range_succ, List.foldl_append]
    simp only [List.foldl_cons, List.foldl_nil, List.map_append, List.map_cons, List.map_nil]
    refine ⟨?_, ⟨?_, ?_, ?_, ?_, ?_⟩, ⟨?_, ?_, ?_, ?_⟩, ?_, ?_⟩ <;>
      simp [constrainPass, Cloth.dispatch, clEnqueueNDRangeKernel, passCommand, passKernel, *]

theorem step_ok (P : Program) (cfg : Config) (c : Cloth)
    (hk : Int.tmod cfg.SOLVER_ITERATIONS 2 = 1) :
    ∃ c2, Cloth.step P cfg c = Except.ok c2 ∧
      c2.sim.commandQueue = c.sim.commandQueue ++ stepCommands cfg c.sim ∧
      sameKernels c.sim c2.sim ∧ sameHandles c c2 ∧
      c2.result = c.result ∧ c2.normalsResult = c.normalsResult := by
  unfold Cloth.step
  simp only [hk, ne_eq, not_true_eq_false, if_false]
  refine ⟨_, rfl, ?_⟩
  obtain ⟨hq, ⟨k1, k2, k3, k4, k5⟩, ⟨h1, h2, h3, h4⟩, hr, hn⟩ :=
    foldl_constrainPass P cfg
      ((c.dispatch P cfg c.sim.advanceKernel).dispatch P cfg
        (c.dispatch P cfg c.sim.advanceKernel).sim.stepKernel)
      cfg.SOLVER_ITERATIONS.toNat
  refine ⟨?_, ⟨?_, ?_, ?_, ?_, ?_⟩, ⟨?_, ?_, ?_, ?_⟩, ?_, ?_⟩ <;>
    simp_all [Cloth.dispatch, clEnqueueNDRangeKernel, clFinish, stepCommands, passCommand, passKernel]

theorem step_abort (P : Program) (cfg : Config) (c : Cloth)
    (hk : Int.tmod cfg.SOLVER_ITERATIONS 2 ≠ 1) :
    ∃ a, Cloth.step P cfg c = Except.error a ∧ a.line = 262 ∧
      a.cloth.sim.commandQueue = c.sim.commandQueue ++
        [Command.ndrange c.sim.advanceKernel [cfg.CLOTH_SIZE, cfg.CLOTH_SIZE]
            [cfg.BLOCK_SIZE, cfg.BLOCK_SIZE],
          Command.ndrange c.sim.stepKernel [cfg.CLOTH_SIZE, cfg.CLOTH_SIZE]
            [cfg.BLOCK_SIZE, cfg.BLOCK_SIZE]] := by
  unfold Cloth.step
  simp only [hk, ne_eq, not_false_eq_true, if_true]
  exact ⟨_, rfl, rfl, by simp [Cloth.dispatch, clEnqueueNDRangeKernel]⟩

theorem tmod_natCast_odd (k : Nat) (h : k % 2 = 1) : Int.tmod (k : Int) 2 = 1 := by
  have h1 : ((k % 2 : Nat) : Int) = 1 := by rw [h]; rfl
  rw [← h1]
  exact (Int.ofNat_tmod k 2).symm

theorem enqueuedBetween_append (c d : Cloth) (l : List Command)
    (h : d.sim.commandQueue = c.sim.commandQueue ++ l) : enqueuedBetween c d = l := by
  simp [enqueuedBetween, h]

theorem fresh_kernelsCreated : Cloth.fresh.sim.kernelsCreated := by
  simp [Cloth.fresh, Cloth.new, ClothSim.init, ClothSim.kernelsCreated]

theorem passCommand_odd (cfg : Config) (sim : ClothSim) (i : Nat) (hi : i % 2 = 1) :
    passCommand cfg sim i = dispatchCommand cfg sim.constrainOddKernel := by
  simp [passCommand, passKernel, dispatchCommand, hi]

/-! ## What `Cloth::transfer` does -/

theorem wrapInt_of_fits (z : Int) (h1 : -2147483648 ≤ z) (h2 : z ≤ 2147483647) :
    wrapInt z = z := by
  unfold wrapInt
  omega

theorem length_copyOver (src host : List cl_float4) :
    (copyOver src host).length = host.length := by
  unfold copyOver
  rw [List.length_take, List.length_append, List.length_drop]
  omega

theorem transfer_length (cfg : Config) (c : Cloth) :
    (Cloth.transfer cfg c).result.length = c.result.length ∧
    (Cloth.transfer cfg c).normalsResult.length = c.normalsResult.length := by
  unfold Cloth.transfer clEnqueueReadBuffer
  constructor
  · dsimp only
    split
    · exact length_copyOver _ _
    · rfl
  · dsimp only
    split
    · exact length_copyOver _ _
    · rfl

/-! ## The buffers after `Cloth::init` -/

theorem init_buffer_oldPositions (cfg : Config) (c : Cloth) :
    (Cloth.init cfg c).buffer (Cloth.init cfg c).oldPositions = some (layout cfg) := by
  unfold Cloth.buffer
  rw [init_context, init_oldPositions, List.get?_eq_getElem?,
    List.getElem?_append_right (le_refl _), Nat.sub_self]
  rfl

theorem init_buffer_positions (cfg : Config) (c : Cloth) :
    (Cloth.init cfg c).buffer (Cloth.init cfg c).positions = some (layout cfg) := by
  unfold Cloth.buffer
  rw [init_context, init_positions, List.get?_eq_getElem?,
    List.getElem?_append_right (Nat.le_add_right _ _), Nat.add_sub_cancel_left]
  rfl

/-! ## Spacing of the layout -/

theorem succ_mod_of_lt (N i : Nat) (hlt : i % N + 1 < N) : (i + 1) % N = i % N + 1 := by
  have h := Nat.div_add_mod i N
  have hi : i + 1 = N * (i / N) + (i % N + 1) := by omega
  rw [hi, Nat.mul_add_mod]
  exact Nat.mod_eq_of_lt hlt

theorem succ_div_of_lt (N i : Nat) (hlt : i % N + 1 < N) : (i + 1) / N = i / N := by
  have h := Nat.div_add_mod i N
  have hN : 0 < N := by omega
  have hi : i + 1 = N * (i / N) + (i % N + 1) := by omega
  rw [hi, Nat.mul_add_div hN, Nat.div_eq_of_lt hlt, Nat.add_zero]

theorem vertex_row_link (cfg : Config) (i : Nat) (h : i % cfg.CLOTH_SIZE < cfg.CLOTH_SIZE - 1) :
    (vertex cfg (i + 1)).s0 - (vertex cfg i).s0 = cfg.CLOTH_SCALE / cfg.CLOTH_SIZE ∧
    (vertex cfg (i + 1)).s1 - (vertex cfg i).s1 = 0 ∧
    (vertex cfg (i + 1)).s2 - (vertex cfg i).s2 = 0 := by
  have hN : 0 < cfg.CLOTH_SIZE := by omega
  have hNq : (cfg.CLOTH_SIZE : ℚ) ≠ 0 := by exact_mod_cast hN.ne'
  have hlt : i % cfg.CLOTH_SIZE + 1 < cfg.CLOTH_SIZE := by omega
  simp only [vertex, succ_mod_of_lt _ _ hlt, succ_div_of_lt _ _ hlt]
  refine ⟨?_, by ring, by ring⟩
  push_cast
  field_simp
  ring

theorem vertex_column_link (cfg : Config) (i : Nat) (hN : 0 < cfg.CLOTH_SIZE) :
    (vertex cfg (i + cfg.CLOTH_SIZE)).s1 - (vertex cfg i).s1
      = cfg.CLOTH_SCALE / cfg.CLOTH_SIZE ∧
    (vertex cfg (i + cfg.CLOTH_SIZE)).s0 - (vertex cfg i).s0 = 0 ∧
    (vertex cfg (i + cfg.CLOTH_SIZE)).s2 - (vertex cfg i).s2 = 0 := by
  have hNq : (cfg.CLOTH_SIZE : ℚ) ≠ 0 := by exact_mod_cast hN.ne'
  simp only [vertex, Nat.add_mod_right, Nat.add_div_right _ hN]
  refine ⟨?_, by ring, by ring⟩
  push_cast
  field_simp
  ring

/-! ## Claims -/

/-- C4, amended: for every grid resolution `N`, after `Cloth::init` the buffers `oldPositions` and
`positions` hold the same `N * N` elements, and, taken in exact arithmetic, element `i` is
`(x, y, z, w)` with
`x = (i mod N) / N * CLOTH_SCALE - CLOTH_SCALE / 2 + CLOTH_START_X`,
`y = (i div N) / N * CLOTH_SCALE - CLOTH_SCALE / 2 + CLOTH_START_Y`, `z = CLOTH_START_Z`, `w = 1`;
the difference of the two buffers is zero at every particle. -/
theorem C4_init_flat_sheet (cfg : Config) (c0 : Cloth) :
    (Cloth.init cfg c0).buffer (Cloth.init cfg c0).oldPositions
      = (Cloth.init cfg c0).buffer (Cloth.init cfg c0).positions ∧
    ∃ previous current,
      (Cloth.init cfg c0).buffer (Cloth.init cfg c0).oldPositions = some previous ∧
      (Cloth.init cfg c0).buffer (Cloth.init cfg c0).positions = some current ∧
      previous.length = cfg.CLOTH_SIZE * cfg.CLOTH_SIZE ∧
      current.length = cfg.CLOTH_SIZE * cfg.CLOTH_SIZE ∧
      ∀ i, i < cfg.CLOTH_SIZE * cfg.CLOTH_SIZE →
        ∃ p q, current.get? i = some p ∧ previous.get? i = some q ∧
          p.s0 = ((i % cfg.CLOTH_SIZE : Nat) : ℚ) / (cfg.CLOTH_SIZE : ℚ) * cfg.CLOTH_SCALE
                  - cfg.CLOTH_SCALE / 2 + cfg.CLOTH_START_X ∧
          p.s1 = ((i / cfg.CLOTH_SIZE : Nat) : ℚ) / (cfg.CLOTH_SIZE : ℚ) * cfg.CLOTH_SCALE
                  - cfg.CLOTH_SCALE / 2 + cfg.CLOTH_START_Y ∧
          p.s2 = cfg.CLOTH_START_Z ∧ p.s3 = 1 ∧
          p.s0 - q.s0 = 0 ∧ p.s1 - q.s1 = 0 ∧ p.s2 - q.s2 = 0 ∧ p.s3 - q.s3 = 0 := by
  refine ⟨by rw [init_buffer_oldPositions, init_buffer_positions], layout cfg, layout cfg,
    init_buffer_oldPositions cfg c0, init_buffer_positions cfg c0, length_layout cfg,
    length_layout cfg, ?_⟩
  intro i hi
  refine ⟨vertex cfg i, vertex cfg i, layout_get? cfg i hi, layout_get? cfg i hi, ?_, ?_,
    rfl, rfl, by ring, by ring, by ring, by ring⟩ <;>
  · simp only [vertex]
    ring

/-- C5: in the layout that `Cloth::init` stores in `positions`, `oldPositions` and the host vertex
array, taken in exact arithmetic, every structural link starts at `CLOTH_SCALE / N`: particles `i`
and `i + 1` of a row (`i mod N < N - 1`) differ by `CLOTH_SCALE / N` in x and by 0 in y and z, and
particles `i` and `i + N` (`i + N < N * N`) differ by `CLOTH_SCALE / N` in y and by 0 in x and
z. -/
theorem C5_links_start_at_rest_length (cfg : Config) (c0 : Cloth) :
    ∃ sheet,
      (Cloth.init cfg c0).buffer (Cloth.init cfg c0).positions = some sheet ∧
      (Cloth.init cfg c0).buffer (Cloth.init cfg c0).oldPositions = some sheet ∧
      (Cloth.init cfg c0).result = sheet ∧
      (∀ i, i < cfg.CLOTH_SIZE * cfg.CLOTH_SIZE → i % cfg.CLOTH_SIZE < cfg.CLOTH_SIZE - 1 →
        ∃ p q, sheet.get? i = some p ∧ sheet.get? (i + 1) = some q ∧
          q.s0 - p.s0 = cfg.CLOTH_SCALE / cfg.CLOTH_SIZE ∧ q.s1 - p.s1 = 0 ∧ q.s2 - p.s2 = 0) ∧
      (∀ i, i + cfg.CLOTH_SIZE < cfg.CLOTH_SIZE * cfg.CLOTH_SIZE →
        ∃ p q, sheet.get? i = some p ∧ sheet.get? (i + cfg.CLOTH_SIZE) = some q ∧
          q.s1 - p.s1 = cfg.CLOTH_SCALE / cfg.CLOTH_SIZE ∧ q.s0 - p.s0 = 0 ∧ q.s2 - p.s2 = 0) := by
  refine ⟨layout cfg, init_buffer_positions cfg c0, init_buffer_oldPositions cfg c0,
    init_result cfg c0, ?_, ?_⟩
  · intro i hi hrow
    have hnext : i + 1 < cfg.CLOTH_SIZE * cfg.CLOTH_SIZE := by
      have h1 := Nat.div_add_mod i cfg.CLOTH_SIZE
      have h2 : i / cfg.CLOTH_SIZE < cfg.CLOTH_SIZE := Nat.div_lt_of_lt_mul hi
      have h3 : cfg.CLOTH_SIZE * (i / cfg.CLOTH_SIZE + 1) ≤ cfg.CLOTH_SIZE * cfg.CLOTH_SIZE :=
        Nat.mul_le_mul_left _ h2
      rw [Nat.mul_add, Nat.mul_one] at h3
      omega
    exact ⟨vertex cfg i, vertex cfg (i + 1), layout_get? cfg i hi, layout_get? cfg _ hnext,
      vertex_row_link cfg i hrow⟩
  · intro i hi
    have hN : 0 < cfg.CLOTH_SIZE := by
      rcases Nat.eq_zero_or_pos cfg.CLOTH_SIZE with h | h
      · rw [h] at hi
        omega
      · exact h
    exact ⟨vertex cfg i, vertex cfg (i + cfg.CLOTH_SIZE), layout_get? cfg i (by omega),
      layout_get? cfg _ hi, vertex_column_link cfg i hN⟩

/-- C6, counterexample: on the 4 x 4 grid of scale 3, particles 0 and 1 of the initial layout
differ by 3/4 in x and particles 0 and 4 differ by 3/4 in y, not by 1. -/
theorem C6_spacing_counterexample :
    ∃ sheet p q r,
      (Cloth.init scenario Cloth.fresh).buffer (Cloth.init scenario Cloth.fresh).positions
        = some sheet ∧
      sheet.get? 0 = some p ∧ sheet.get? 1 = some q ∧ sheet.get? 4 = some r ∧
      q.s0 - p.s0 = 3 / 4 ∧ r.s1 - p.s1 = 3 / 4 ∧ q.s0 - p.s0 ≠ 1 ∧ r.s1 - p.s1 ≠ 1 := by
  refine ⟨layout scenario, vertex scenario 0, vertex scenario 1, vertex scenario 4,
    init_buffer_positions scenario Cloth.fresh, layout_get? scenario 0 (by decide),
    layout_get? scenario 1 (by decide), layout_get? scenario 4 (by decide), ?_, ?_, ?_, ?_⟩ <;>
    norm_num [vertex, scenario, config]

/-- C6, amended: for a 4 x 4 grid with physical scale 3 the initial layout that `Cloth::init`
produces, taken in exact arithmetic, has spacing 3/4 (`CLOTH_SCALE / CLOTH_SIZE`) between axis-adjacent particles: indices `i`
and `i + 1` within a row differ by 3/4 in x, indices `i` and `i + 4` differ by 3/4 in y. -/
theorem C6_spacing_three_quarters (cfg : Config) (c0 : Cloth) (hN : cfg.CLOTH_SIZE = 4)
    (hS : cfg.CLOTH_SCALE = 3) :
    ∃ sheet,
      (Cloth.init cfg c0).buffer (Cloth.init cfg c0).positions = some sheet ∧
      sheet.length = 16 ∧
      (∀ i, i < 16 → i % 4 < 3 →
        ∃ p q, sheet.get? i = some p ∧ sheet.get? (i + 1) = some q ∧ q.s0 - p.s0 = 3 / 4) ∧
      (∀ i, i + 4 < 16 →
        ∃ p q, sheet.get? i = some p ∧ sheet.get? (i + 4) = some q ∧ q.s1 - p.s1 = 3 / 4) := by
  have hq : cfg.CLOTH_SCALE / (cfg.CLOTH_SIZE : ℚ) = 3 / 4 := by
    rw [hS, hN]
    norm_num
  refine ⟨layout cfg, init_buffer_positions cfg c0, by rw [length_layout, hN], ?_, ?_⟩
  · intro i hi hrow
    have h1 := (vertex_row_link cfg i (by rw [hN]; omega)).1
    rw [hq] at h1
    exact ⟨vertex cfg i, vertex cfg (i + 1), layout_get? cfg i (by rw [hN]; omega),
      layout_get? cfg _ (by rw [hN]; omega), h1⟩
  · intro i hi
    have h1 := (vertex_column_link cfg i (by rw [hN]; omega)).1
    rw [hq, hN] at h1
    exact ⟨vertex cfg i, vertex cfg (i + 4), layout_get? cfg i (by rw [hN]; omega),
      layout_get? cfg _ (by rw [hN]; omega), h1⟩

/-- Witness of the amended C6: the example scenario of the spec, on a fresh cloth. -/
theorem C6_spacing_three_quarters_witness :
    scenario.CLOTH_SIZE = 4 ∧ scenario.CLOTH_SCALE = 3 ∧
    ∃ sheet,
      (Cloth.init scenario Cloth.fresh).buffer (Cloth.init scenario Cloth.fresh).positions
        = some sheet ∧
      sheet.length = 16 ∧
      (∀ i, i < 16 → i % 4 < 3 →
        ∃ p q, sheet.get? i = some p ∧ sheet.get? (i + 1) = some q ∧ q.s0 - p.s0 = 3 / 4) ∧
      (∀ i, i + 4 < 16 →
        ∃ p q, sheet.get? i = some p ∧ sheet.get? (i + 4) = some q ∧ q.s1 - p.s1 = 3 / 4) :=
  ⟨rfl, rfl, C6_spacing_three_quarters scenario Cloth.fresh rfl rfl⟩

theorem tmod_of_even (k : Int) (h : k % 2 = 0) : Int.tmod k 2 ≠ 1 := by
  rw [Int.tmod_eq_zero_of_dvd (Int.dvd_of_emod_eq_zero h)]
  decide

theorem reset_ok (P : Program) (cfg : Config) (c : Cloth)
    (hk : Int.tmod cfg.SOLVER_ITERATIONS 2 = 1) : ∃ c2, Cloth.reset P cfg c = Except.ok c2 := by
  obtain ⟨c2, h2, -⟩ := step_ok P cfg (Cloth.rebuild cfg c) hk
  exact ⟨Cloth.transfer cfg c2, by rw [Cloth.reset, h2]; rfl⟩

theorem run_ok (P : Program) (cfg : Config) (hk : Int.tmod cfg.SOLVER_ITERATIONS 2 = 1)
    (history : List Call) : ∀ c, ∃ c2, Cloth.run P cfg history c = Except.ok c2 := by
  induction history with
  | nil => exact fun c => ⟨c, rfl⟩
  | cons x h ih =>
    intro c
    have hx : ∃ c1, Cloth.call P cfg c x = Except.ok c1 := by
      cases x with
      | step =>
        obtain ⟨c1, h1, -⟩ := step_ok P cfg c hk
        exact ⟨c1, h1⟩
      | transfer => exact ⟨_, rfl⟩
      | reset => exact reset_ok P cfg c hk
    obtain ⟨c1, h1⟩ := hx
    obtain ⟨c2, h2⟩ := ih c1
    exact ⟨c2, by rw [Cloth.run, h1]; exact h2⟩

theorem uninit_kernelsCreated (c : Cloth) (h : c.sim.kernelsCreated) :
    (Cloth.uninit c).sim.kernelsCreated := by
  have hr : ∀ (sim : ClothSim) (m : cl_mem), sim.kernelsCreated →
      (clReleaseMemObject sim m).kernelsCreated := by
    intro sim m hs
    unfold clReleaseMemObject
    split
    · exact hs
    · exact hs
  exact hr _ _ (hr _ _ (hr _ _ (hr _ _ h)))

theorem step_kernelsCreated (P : Program) (cfg : Config) (c c2 : Cloth)
    (h : c.sim.kernelsCreated) (hs : Cloth.step P cfg c = Except.ok c2) :
    c2.sim.kernelsCreated := by
  by_cases hk : Int.tmod cfg.SOLVER_ITERATIONS 2 = 1
  · obtain ⟨c3, h3, -, ⟨k1, k2, k3, k4, k5⟩, -⟩ := step_ok P cfg c hk
    rw [h3] at hs
    cases hs
    unfold ClothSim.kernelsCreated
    rw [k1, k2, k3, k4, k5]
    exact h
  · obtain ⟨a, ha, -⟩ := step_abort P cfg c hk
    rw [ha] at hs
    cases hs

theorem transfer_kernelsCreated (cfg : Config) (c : Cloth) (h : c.sim.kernelsCreated) :
    (Cloth.transfer cfg c).sim.kernelsCreated := h

theorem call_kernelsCreated (P : Program) (cfg : Config) (x : Call) (c c2 : Cloth)
    (h : c.sim.kernelsCreated) (hs : Cloth.call P cfg c x = Except.ok c2) :
    c2.sim.kernelsCreated := by
  cases x with
  | step => exact step_kernelsCreated P cfg c c2 h hs
  | transfer =>
    cases hs
    exact transfer_kernelsCreated cfg c h
  | reset =>
    have hr : (Cloth.rebuild cfg c).sim.kernelsCreated :=
      init_kernelsCreated cfg _ (uninit_kernelsCreated c h)
    simp only [Cloth.call, Cloth.reset] at hs
    cases h3 : Cloth.step P cfg (Cloth.rebuild cfg c) with
    | error a =>
      rw [h3] at hs
      cases hs
    | ok c3 =>
      rw [h3] at hs
      cases hs
      exact transfer_kernelsCreated cfg c3 (step_kernelsCreated P cfg _ c3 hr h3)

/-- Every state the program reaches holds the kernel objects that `ClothSim::init` created. -/
theorem run_kernelsCreated (P : Program) (cfg : Config) (history : List Call) :
    ∀ c c2, c.sim.kernelsCreated → Cloth.run P cfg history c = Except.ok c2 →
      c2.sim.kernelsCreated := by
  induction history with
  | nil =>
    intro c c2 h hs
    cases hs
    exact h
  | cons x hist ih =>
    intro c c2 h hs
    rw [Cloth.run] at hs
    cases h1 : Cloth.call P cfg c x with
    | error a =>
      rw [h1] at hs
      cases hs
    | ok c1 =>
      rw [h1] at hs
      exact ih c1 c2 (call_kernelsCreated P cfg x c c1 h h1) hs

/-- C7: whatever history of `step`, `transfer` and `reset` calls has run since the first
`Cloth::init`, between the `uninit(); init();` of `Cloth::reset` and its `step()` the host vertex
array and the buffers `oldPositions` and `positions` are what the first `Cloth::init` produced:
the flat-sheet layout of `N * N` elements. With an odd pass count every history runs to its
end. -/
theorem C7_reset_fidelity (P : Program) (cfg : Config) (c0 : Cloth) (history : List Call) :
    (∀ c, Cloth.run P cfg history (Cloth.init cfg c0) = Except.ok c →
      Cloth.reset P cfg c
        = (Cloth.step P cfg (Cloth.rebuild cfg c)).map (Cloth.transfer cfg) ∧
      (Cloth.rebuild cfg c).result = (Cloth.init cfg c0).result ∧
      (Cloth.rebuild cfg c).buffer (Cloth.rebuild cfg c).oldPositions
        = (Cloth.init cfg c0).buffer (Cloth.init cfg c0).oldPositions ∧
      (Cloth.rebuild cfg c).buffer (Cloth.rebuild cfg c).positions
        = (Cloth.init cfg c0).buffer (Cloth.init cfg c0).positions ∧
      (Cloth.rebuild cfg c).result = (List.range (cfg.CLOTH_SIZE * cfg.CLOTH_SIZE)).map (vertex cfg) ∧
      (Cloth.rebuild cfg c).buffer (Cloth.rebuild cfg c).oldPositions
        = some ((List.range (cfg.CLOTH_SIZE * cfg.CLOTH_SIZE)).map (vertex cfg)) ∧
      (Cloth.rebuild cfg c).buffer (Cloth.rebuild cfg c).positions
        = some ((List.range (cfg.CLOTH_SIZE * cfg.CLOTH_SIZE)).map (vertex cfg)) ∧
      (Cloth.rebuild cfg c).result.length = cfg.CLOTH_SIZE * cfg.CLOTH_SIZE) ∧
    ∀ k : Nat, k % 2 = 1 → cfg.SOLVER_ITERATIONS = (k : Int) →
      ∃ c, Cloth.run P cfg history (Cloth.init cfg c0) = Except.ok c := by
  refine ⟨fun c _ => ⟨rfl, ?_, ?_, ?_, ?_, ?_, ?_, ?_⟩, ?_⟩
  · rw [Cloth.rebuild, init_result, init_result]
  · rw [Cloth.rebuild, init_buffer_oldPositions, init_buffer_oldPositions]
  · rw [Cloth.rebuild, init_buffer_positions, init_buffer_positions]
  · rw [Cloth.rebuild, init_result]
    rfl
  · rw [Cloth.rebuild, init_buffer_oldPositions]
    rfl
  · rw [Cloth.rebuild, init_buffer_positions]
    rfl
  · rw [Cloth.rebuild, init_result, length_layout]
  · intro k hodd hk
    exact run_ok P cfg (by rw [hk]; exact tmod_natCast_odd k hodd) history _

/-- C2, counterexample: with the even pass count 2, `Cloth::init` on a fresh cloth returns with
four buffers created, and the following `Cloth::step` stops at the assertion of line 262 after
the `advance` and `timeStep` kernels have been dispatched. -/
theorem C2_even_count_counterexample :
    (configWith 128 2).SOLVER_ITERATIONS % 2 = 0 ∧
    (Cloth.init (configWith 128 2) Cloth.fresh).sim.context.length = 4 ∧
    ∃ a, Cloth.step copyProgram (configWith 128 2) (Cloth.init (configWith 128 2) Cloth.fresh)
        = Except.error a ∧ a.line = 262 ∧
      (enqueuedBetween (Cloth.init (configWith 128 2) Cloth.fresh) a.cloth).map Command.kernelFn
        = [some KernelFn.advance, some KernelFn.timeStep] := by
  obtain ⟨a, h1, h2, h3⟩ := step_abort copyProgram (configWith 128 2)
    (Cloth.init (configWith 128 2) Cloth.fresh) (by decide)
  obtain ⟨f1, -, -, f4, -⟩ := init_kernelsCreated (configWith 128 2) Cloth.fresh fresh_kernelsCreated
  refine ⟨by decide, ?_, a, h1, h2, ?_⟩
  · rw [init_context]
    rfl
  · rw [enqueuedBetween_append _ _ _ h3]
    simp [Command.kernelFn, f1, f4]

/-- C2, amended: an even pass count is not rejected by `Cloth::init`, which does what it does for
the odd count 1: it creates its four buffers, fills `oldPositions` and `positions` and enqueues
nothing. The count is rejected by the assertion of line 262 in `Cloth::step`, after the `advance`
and `timeStep` kernels have been dispatched and before any relaxation pass is. -/
theorem C2_even_count_rejected_in_step (P : Program) (cfg : Config) (c0 : Cloth)
    (heven : cfg.SOLVER_ITERATIONS % 2 = 0) (hc : c0.sim.kernelsCreated) :
    Cloth.init cfg c0 = Cloth.init { cfg with SOLVER_ITERATIONS := 1 } c0 ∧
    (Cloth.init cfg c0).sim.context.length = c0.sim.context.length + 4 ∧
    (Cloth.init cfg c0).buffer (Cloth.init cfg c0).oldPositions
      = some ((List.range (cfg.CLOTH_SIZE * cfg.CLOTH_SIZE)).map (vertex cfg)) ∧
    (Cloth.init cfg c0).buffer (Cloth.init cfg c0).positions
      = some ((List.range (cfg.CLOTH_SIZE * cfg.CLOTH_SIZE)).map (vertex cfg)) ∧
    (Cloth.init cfg c0).sim.commandQueue = c0.sim.commandQueue ∧
    ∃ a, Cloth.step P cfg (Cloth.init cfg c0) = Except.error a ∧ a.line = 262 ∧
      enqueuedBetween (Cloth.init cfg c0) a.cloth
        = [dispatchCommand cfg (Cloth.init cfg c0).sim.advanceKernel,
            dispatchCommand cfg (Cloth.init cfg c0).sim.stepKernel] ∧
      (enqueuedBetween (Cloth.init cfg c0) a.cloth).map Command.kernelFn
        = [some KernelFn.advance, some KernelFn.timeStep] := by
  obtain ⟨a, h1, h2, h3⟩ := step_abort P cfg (Cloth.init cfg c0) (tmod_of_even _ heven)
  obtain ⟨f1, -, -, f4, -⟩ := init_kernelsCreated cfg c0 hc
  have he := enqueuedBetween_append _ _ _ h3
  refine ⟨rfl, by rw [init_context]; simp, init_buffer_oldPositions cfg c0,
    init_buffer_positions cfg c0, init_commandQueue cfg c0, a, h1, h2, he, ?_⟩
  rw [he]
  simp [Command.kernelFn, f1, f4]

/-- Witness of the amended C2: the configuration of `config.h` with two passes, on a fresh
cloth. -/
theorem C2_even_count_rejected_in_step_witness :
    (configWith 128 2).SOLVER_ITERATIONS % 2 = 0 ∧ Cloth.fresh.sim.kernelsCreated ∧
    ∃ a, Cloth.step copyProgram (configWith 128 2) (Cloth.init (configWith 128 2) Cloth.fresh)
        = Except.error a ∧ a.line = 262 := by
  obtain ⟨-, -, -, -, -, a, h1, h2, -⟩ := C2_even_count_rejected_in_step copyProgram
    (configWith 128 2) Cloth.fresh (by decide) fresh_kernelsCreated
  exact ⟨by decide, fresh_kernelsCreated, a, h1, h2⟩

/-! ## The Integrator and the Bookkeeper -/

theorem length_writeMem (ctx : List MemObject) (m : cl_mem) (d : List cl_float4) :
    (writeMem ctx m d).length = ctx.length := by
  unfold writeMem
  split <;> simp

theorem getElem?_writeMem (ctx : List MemObject) (m j : cl_mem) (d : List cl_float4) :
    (writeMem ctx m d)[j]?
      = if j = m then (ctx[m]?).map (fun o => { o with data := some d }) else ctx[j]? := by
  unfold writeMem
  rw [List.get?_eq_getElem?]
  by_cases hjm : j = m
  · subst hjm
    cases h : ctx[j]? with
    | none => simp [h]
    | some o =>
      have hlt : j < ctx.length := by
        rcases Nat.lt_or_ge j ctx.length with hlt | hge
        · exact hlt
        · rw [List.getElem?_eq_none hge] at h
          exact Option.noConfusion h
      simp [List.getElem?_set_self hlt]
  · cases h : ctx[m]? with
    | none => simp [hjm]
    | some o => simp [hjm, List.getElem?_set_ne (Ne.symm hjm)]

theorem readMem_writeMem (ctx : List MemObject) (m j : cl_mem) (d : List cl_float4)
    (hm : m < ctx.length) :
    readMem (writeMem ctx m d) j = if j = m then d else readMem ctx j := by
  unfold readMem
  rw [List.get?_eq_getElem?, List.get?_eq_getElem?, getElem?_writeMem]
  by_cases hjm : j = m
  · subst hjm
    rw [List.getElem?_eq_getElem hm]
    simp
  · simp [hjm]

theorem writeMem_of_le (ctx : List MemObject) (m : cl_mem) (d : List cl_float4)
    (hm : ctx.length ≤ m) : writeMem ctx m d = ctx := by
  unfold writeMem
  rw [List.get?_eq_getElem?, List.getElem?_eq_none hm]

theorem readMem_writeMem_iff (ctx : List MemObject) (m j : cl_mem) (d : List cl_float4) :
    readMem (writeMem ctx m d) j = if j = m ∧ m < ctx.length then d else readMem ctx j := by
  rcases Nat.lt_or_ge m ctx.length with hm | hm
  · rw [readMem_writeMem ctx m j d hm]
    simp [hm]
  · rw [writeMem_of_le ctx m d hm, if_neg (fun h => absurd h.2 (Nat.not_lt.2 hm))]

theorem contents_writeMem (ctx : List MemObject) (m j : cl_mem) (d : List cl_float4) :
    ((writeMem ctx m d)[j]?).bind (fun o => o.data)
      = if j = m ∧ m < ctx.length then some d else (ctx[j]?).bind (fun o => o.data) := by
  rcases Nat.lt_or_ge m ctx.length with hm | hm
  · rw [getElem?_writeMem]
    by_cases hjm : j = m
    · subst hjm
      rw [List.getElem?_eq_getElem hm]
      simp [hm]
    · simp [hjm]
  · rw [writeMem_of_le ctx m d hm, if_neg (fun h => absurd h.2 (Nat.not_lt.2 hm))]

theorem runKernel_advance (P : Program) (k : cl_kernel) (ctx : List MemObject) (a b w : cl_mem)
    (hfn : k.fn = KernelFn.advance) (h0 : k.argMem 0 = some a) (h1 : k.argMem 1 = some b)
    (h2 : k.argMem 2 = some w) :
    runKernel P k ctx = writeMem ctx w (P.advance (readMem ctx a) (readMem ctx b)) := by
  simp [runKernel, runKernelFn, hfn, KernelFn.writes, KernelFn.reads, Program.run, h0, h1, h2]

theorem runKernel_timeStep (P : Program) (k : cl_kernel) (ctx : List MemObject) (b w : cl_mem)
    (hfn : k.fn = KernelFn.timeStep) (h0 : k.argMem 0 = some w) (h1 : k.argMem 1 = some b) :
    runKernel P k ctx = writeMem ctx w (P.timeStep (readMem ctx b)) := by
  simp [runKernel, runKernelFn, hfn, KernelFn.writes, KernelFn.reads, Program.run, h0, h1]

theorem withSheets_context_length (cfg : Config) (c0 : Cloth) (previous current : List cl_float4) :
    (Cloth.withSheets cfg c0 previous current).sim.context.length
      = c0.sim.context.length + 4 := by
  simp [Cloth.withSheets, Cloth.store, length_writeMem, init_context]

theorem withSheets_readMem_oldPositions (cfg : Config) (c0 : Cloth)
    (previous current : List cl_float4) :
    readMem (Cloth.withSheets cfg c0 previous current).sim.context c0.sim.context.length
      = previous := by
  simp [Cloth.withSheets, Cloth.store, init_oldPositions, init_positions, readMem_writeMem_iff,
    length_writeMem, init_context]

theorem withSheets_readMem_positions (cfg : Config) (c0 : Cloth)
    (previous current : List cl_float4) :
    readMem (Cloth.withSheets cfg c0 previous current).sim.context (c0.sim.context.length + 1)
      = current := by
  simp [Cloth.withSheets, Cloth.store, init_oldPositions, init_positions, readMem_writeMem_iff,
    length_writeMem, init_context]

theorem withSheets_contents_positions (cfg : Config) (c0 : Cloth)
    (previous current : List cl_float4) :
    (((Cloth.withSheets cfg c0 previous current).sim.context)[c0.sim.context.length + 1]?).bind
      (fun o => o.data) = some current := by
  simp only [Cloth.withSheets, Cloth.store, init_oldPositions, init_positions]
  rw [contents_writeMem]
  simp [length_writeMem, init_context]

/-- The three position buffers after the two dispatches, in either order. -/
theorem both_orders (P : Program) (cfg : Config) (c0 : Cloth) (previous current : List cl_float4)
    (hc : c0.sim.kernelsCreated) :
    (integratorThenBookkeeper P cfg (Cloth.withSheets cfg c0 previous current)).buffer
        (Cloth.init cfg c0).newPositions = some (P.advance previous current) ∧
    (integratorThenBookkeeper P cfg (Cloth.withSheets cfg c0 previous current)).buffer
        (Cloth.init cfg c0).oldPositions = some (P.timeStep current) ∧
    (integratorThenBookkeeper P cfg (Cloth.withSheets cfg c0 previous current)).buffer
        (Cloth.init cfg c0).positions = some current ∧
    (bookkeeperThenIntegrator P cfg (Cloth.withSheets cfg c0 previous current)).buffer
        (Cloth.init cfg c0).newPositions = some (P.advance (P.timeStep current) current) ∧
    (bookkeeperThenIntegrator P cfg (Cloth.withSheets cfg c0 previous current)).buffer
        (Cloth.init cfg c0).oldPositions = some (P.timeStep current) ∧
    (bookkeeperThenIntegrator P cfg (Cloth.withSheets cfg c0 previous current)).buffer
        (Cloth.init cfg c0).positions = some current := by
  obtain ⟨f1, -, -, f4, -⟩ := init_kernelsCreated cfg c0 hc
  have hlen := withSheets_context_length cfg c0 previous current
  have hold := withSheets_readMem_oldPositions cfg c0 previous current
  have hpos := withSheets_readMem_positions cfg c0 previous current
  have hcur := withSheets_contents_positions cfg c0 previous current
  have ka : (Cloth.withSheets cfg c0 previous current).sim.advanceKernel
      = (Cloth.init cfg c0).sim.advanceKernel := rfl
  have ks : (Cloth.withSheets cfg c0 previous current).sim.stepKernel
      = (Cloth.init cfg c0).sim.stepKernel := rfl
  have hadv := fun ctx => runKernel_advance P (Cloth.init cfg c0).sim.advanceKernel ctx
    c0.sim.context.length (c0.sim.context.length + 1) (c0.sim.context.length + 2) f1
    (by rw [init_advanceKernel]; simp) (by rw [init_advanceKernel]; simp)
    (by rw [init_advanceKernel]; simp)
  have hts := fun ctx => runKernel_timeStep P (Cloth.init cfg c0).sim.stepKernel ctx
    (c0.sim.context.length + 1) c0.sim.context.length f4
    (by rw [init_stepKernel]; simp) (by rw [init_stepKernel]; simp)
  simp only [integratorThenBookkeeper, bookkeeperThenIntegrator, Cloth.dispatch,
    clEnqueueNDRangeKernel, Cloth.buffer, ka, ks, hadv, hts, init_newPositions,
    init_oldPositions, init_positions, List.get?_eq_getElem?]
  simp only [contents_writeMem, readMem_writeMem_iff, length_writeMem, hlen, hold, hpos, hcur]
  refine ⟨?_, ?_, ?_, ?_, ?_, ?_⟩ <;> simp

/-- The first two dispatches of `Cloth::step` are the Integrator, then the Bookkeeper. -/
theorem step_starts_with_integrator (P : Program) (cfg : Config) (c : Cloth)
    (hk : Int.tmod cfg.SOLVER_ITERATIONS 2 ≠ 1) :
    Cloth.step P cfg c = Except.error ⟨262, integratorThenBookkeeper P cfg c⟩ := by
  unfold Cloth.step
  simp only [hk, ne_eq, not_false_eq_true, if_true]
  rfl

/-- C10, counterexample: one particle with Previous = (0, 0, 10, 1) and Current = (1, 0, 10, 1),
no damping. The Integrator followed by the Bookkeeper leaves x = 2 in Provisional; the Bookkeeper
followed by the Integrator leaves x = 1. -/
theorem C10_order_counterexample :
    (integratorThenBookkeeper (specProgram oneParticle scenarioGravity id id) oneParticle
        (Cloth.withSheets oneParticle Cloth.fresh [⟨0, 0, 10, 1⟩] [⟨1, 0, 10, 1⟩])).buffer
        (Cloth.init oneParticle Cloth.fresh).newPositions
      = some [⟨2, 0, 179951 / 18000, 1⟩] ∧
    (bookkeeperThenIntegrator (specProgram oneParticle scenarioGravity id id) oneParticle
        (Cloth.withSheets oneParticle Cloth.fresh [⟨0, 0, 10, 1⟩] [⟨1, 0, 10, 1⟩])).buffer
        (Cloth.init oneParticle Cloth.fresh).newPositions
      = some [⟨1, 0, 179951 / 18000, 1⟩] ∧
    (integratorThenBookkeeper (specProgram oneParticle scenarioGravity id id) oneParticle
        (Cloth.withSheets oneParticle Cloth.fresh [⟨0, 0, 10, 1⟩] [⟨1, 0, 10, 1⟩])).buffer
        (Cloth.init oneParticle Cloth.fresh).newPositions
      ≠ (bookkeeperThenIntegrator (specProgram oneParticle scenarioGravity id id) oneParticle
        (Cloth.withSheets oneParticle Cloth.fresh [⟨0, 0, 10, 1⟩] [⟨1, 0, 10, 1⟩])).buffer
        (Cloth.init oneParticle Cloth.fresh).newPositions := by
  obtain ⟨h1, -, -, h4, -, -⟩ := both_orders (specProgram oneParticle scenarioGravity id id)
    oneParticle Cloth.fresh [⟨0, 0, 10, 1⟩] [⟨1, 0, 10, 1⟩] fresh_kernelsCreated
  have e1 : (specProgram oneParticle scenarioGravity id id).advance [⟨0, 0, 10, 1⟩]
      [⟨1, 0, 10, 1⟩] = [⟨2, 0, 179951 / 18000, 1⟩] := by
    norm_num [specProgram, integrate, oneParticle, scenario, config, scenarioGravity]
  have e2 : (specProgram oneParticle scenarioGravity id id).advance
      ((specProgram oneParticle scenarioGravity id id).timeStep [⟨1, 0, 10, 1⟩])
      [⟨1, 0, 10, 1⟩] = [⟨1, 0, 179951 / 18000, 1⟩] := by
    norm_num [specProgram, integrate, oneParticle, scenario, config, scenarioGravity]
  rw [h1, h4, e1, e2]
  refine ⟨rfl, rfl, ?_⟩
  intro h
  have h2 := congrArg cl_float4.s0 (List.cons.inj (Option.some.inj h)).1
  norm_num at h2

/-- C10, amended: the Integrator has to run before the Bookkeeper, as `Cloth::step` enqueues them.
In that order Provisional becomes `current + (current - previous) * (1 - damping) + g * dt²`; with
the Bookkeeper first, Provisional becomes `current + g * dt²`, the inertial term being lost. In
both orders Previous ends as a copy of Current and Current is unchanged, and the two orders agree
on Provisional when Previous equals Current on entry. -/
theorem C10_integrator_before_bookkeeper (cfg : Config) (c0 : Cloth) (g : cl_float4)
    (constrain calculateNormals : List cl_float4 → List cl_float4)
    (previous current : List cl_float4) (hc : c0.sim.kernelsCreated) :
    (integratorThenBookkeeper (specProgram cfg g constrain calculateNormals) cfg
        (Cloth.withSheets cfg c0 previous current)).buffer (Cloth.init cfg c0).newPositions
      = some (List.zipWith (integrate cfg.SOLVER_DAMPING cfg.SOLVER_TIMESTEP g)
          previous current) ∧
    (integratorThenBookkeeper (specProgram cfg g constrain calculateNormals) cfg
        (Cloth.withSheets cfg c0 previous current)).buffer (Cloth.init cfg c0).oldPositions
      = some current ∧
    (integratorThenBookkeeper (specProgram cfg g constrain calculateNormals) cfg
        (Cloth.withSheets cfg c0 previous current)).buffer (Cloth.init cfg c0).positions
      = some current ∧
    (bookkeeperThenIntegrator (specProgram cfg g constrain calculateNormals) cfg
        (Cloth.withSheets cfg c0 previous current)).buffer (Cloth.init cfg c0).newPositions
      = some (current.map (fun p =>
          (⟨p.s0 + g.s0 * cfg.SOLVER_TIMESTEP ^ 2, p.s1 + g.s1 * cfg.SOLVER_TIMESTEP ^ 2,
            p.s2 + g.s2 * cfg.SOLVER_TIMESTEP ^ 2, p.s3 + g.s3 * cfg.SOLVER_TIMESTEP ^ 2⟩ :
            cl_float4))) ∧
    (bookkeeperThenIntegrator (specProgram cfg g constrain calculateNormals) cfg
        (Cloth.withSheets cfg c0 previous current)).buffer (Cloth.init cfg c0).oldPositions
      = some current ∧
    (bookkeeperThenIntegrator (specProgram cfg g constrain calculateNormals) cfg
        (Cloth.withSheets cfg c0 previous current)).buffer (Cloth.init cfg c0).positions
      = some current ∧
    (previous = current →
      (integratorThenBookkeeper (specProgram cfg g constrain calculateNormals) cfg
          (Cloth.withSheets cfg c0 previous current)).buffer (Cloth.init cfg c0).newPositions
        = (bookkeeperThenIntegrator (specProgram cfg g constrain calculateNormals) cfg
          (Cloth.withSheets cfg c0 previous current)).buffer
            (Cloth.init cfg c0).newPositions) := by
  obtain ⟨h1, h2, h3, h4, h5, h6⟩ := both_orders (specProgram cfg g constrain calculateNormals)
    cfg c0 previous current hc
  have hself : ∀ l : List cl_float4,
      List.zipWith (integrate cfg.SOLVER_DAMPING cfg.SOLVER_TIMESTEP g) l l
        = l.map (fun p =>
          (⟨p.s0 + g.s0 * cfg.SOLVER_TIMESTEP ^ 2, p.s1 + g.s1 * cfg.SOLVER_TIMESTEP ^ 2,
            p.s2 + g.s2 * cfg.SOLVER_TIMESTEP ^ 2, p.s3 + g.s3 * cfg.SOLVER_TIMESTEP ^ 2⟩ :
            cl_float4)) := by
    intro l
    induction l with
    | nil => rfl
    | cons p l ih =>
      rw [List.zipWith_cons_cons, ih, List.map_cons]
      congr 1
      simp [integrate]
  have h4b : (specProgram cfg g constrain calculateNormals).advance
      ((specProgram cfg g constrain calculateNormals).timeStep current) current
      = List.zipWith (integrate cfg.SOLVER_DAMPING cfg.SOLVER_TIMESTEP g) current current := rfl
  refine ⟨h1, h2, h3, ?_, h5, h6, ?_⟩
  · rw [h4, h4b, hself]
  · intro heq
    rw [h1, h4, h4b, heq]
    rfl

/-- Witness of the amended C10: the one-particle scenario on a fresh cloth. -/
theorem C10_integrator_before_bookkeeper_witness :
    Cloth.fresh.sim.kernelsCreated ∧
    (integratorThenBookkeeper (specProgram oneParticle scenarioGravity id id) oneParticle
        (Cloth.withSheets oneParticle Cloth.fresh [⟨0, 0, 10, 1⟩] [⟨1, 0, 10, 1⟩])).buffer
        (Cloth.init oneParticle Cloth.fresh).oldPositions
      = some [⟨1, 0, 10, 1⟩] :=
  ⟨fresh_kernelsCreated,
    (C10_integrator_before_bookkeeper oneParticle Cloth.fresh scenarioGravity id id
      [⟨0, 0, 10, 1⟩] [⟨1, 0, 10, 1⟩] fresh_kernelsCreated).2.1⟩

/-! ## The size of the host arrays -/

theorem step_host (P : Program) (cfg : Config) (c c2 : Cloth)
    (hs : Cloth.step P cfg c = Except.ok c2) :
    c2.result = c.result ∧ c2.normalsResult = c.normalsResult := by
  by_cases hk : Int.tmod cfg.SOLVER_ITERATIONS 2 = 1
  · obtain ⟨c3, h3, -, -, -, r1, r2⟩ := step_ok P cfg c hk
    rw [h3] at hs
    cases hs
    exact ⟨r1, r2⟩
  · obtain ⟨a, ha, -⟩ := step_abort P cfg c hk
    rw [ha] at hs
    cases hs

theorem init_host_length (cfg : Config) (c : Cloth) :
    (Cloth.init cfg c).result.length = cfg.CLOTH_SIZE * cfg.CLOTH_SIZE ∧
    (Cloth.init cfg c).normalsResult.length = cfg.CLOTH_SIZE * cfg.CLOTH_SIZE :=
  ⟨by rw [init_result, length_layout], by rw [init_normalsResult, length_resize]⟩

theorem reset_host_length (P : Program) (cfg : Config) (c c2 : Cloth)
    (hs : Cloth.reset P cfg c = Except.ok c2) :
    c2.result.length = cfg.CLOTH_SIZE * cfg.CLOTH_SIZE ∧
    c2.normalsResult.length = cfg.CLOTH_SIZE * cfg.CLOTH_SIZE := by
  unfold Cloth.reset at hs
  cases h3 : Cloth.step P cfg (Cloth.rebuild cfg c) with
  | error a =>
    rw [h3] at hs
    cases hs
  | ok c3 =>
    rw [h3] at hs
    cases hs
    obtain ⟨r1, r2⟩ := step_host P cfg _ c3 h3
    obtain ⟨t1, t2⟩ := transfer_length cfg c3
    obtain ⟨i1, i2⟩ := init_host_length cfg (Cloth.uninit c)
    exact ⟨by rw [t1, r1]; exact i1, by rw [t2, r2]; exact i2⟩

theorem call_host_length (P : Program) (cfg : Config) (x : Call) (c c2 : Cloth)
    (h : c.result.length = cfg.CLOTH_SIZE * cfg.CLOTH_SIZE ∧
      c.normalsResult.length = cfg.CLOTH_SIZE * cfg.CLOTH_SIZE)
    (hs : Cloth.call P cfg c x = Except.ok c2) :
    c2.result.length = cfg.CLOTH_SIZE * cfg.CLOTH_SIZE ∧
    c2.normalsResult.length = cfg.CLOTH_SIZE * cfg.CLOTH_SIZE := by
  cases x with
  | step =>
    obtain ⟨r1, r2⟩ := step_host P cfg c c2 hs
    rw [r1, r2]
    exact h
  | transfer =>
    cases hs
    obtain ⟨t1, t2⟩ := transfer_length cfg c
    rw [t1, t2]
    exact h
  | reset => exact reset_host_length P cfg c c2 hs

/-- In every state the program reaches the two host arrays hold `N * N` elements. -/
theorem run_host_length (P : Program) (cfg : Config) (history : List Call) :
    ∀ c c2,
      (c.result.length = cfg.CLOTH_SIZE * cfg.CLOTH_SIZE ∧
        c.normalsResult.length = cfg.CLOTH_SIZE * cfg.CLOTH_SIZE) →
      Cloth.run P cfg history c = Except.ok c2 →
      c2.result.length = cfg.CLOTH_SIZE * cfg.CLOTH_SIZE ∧
      c2.normalsResult.length = cfg.CLOTH_SIZE * cfg.CLOTH_SIZE := by
  induction history with
  | nil =>
    intro c c2 h hs
    cases hs
    exact h
  | cons x hist ih =>
    intro c c2 h hs
    rw [Cloth.run] at hs
    cases h1 : Cloth.call P cfg c x with
    | error a =>
      rw [h1] at hs
      cases hs
    | ok c1 =>
      rw [h1] at hs
      exact ih c1 c2 (call_host_length P cfg x c c1 h h1) hs

/-! ## The indices the renderer reads -/

theorem forLoop_natCast (n : Nat) : forLoop (n : Int) = some (List.range n) := by
  simp [forLoop]

theorem forLoop_pred (n : Nat) (h : 1 ≤ n) :
    forLoop ((n : Int) - 1) = some (List.range (n - 1)) := by
  have h1 : (0 : Int) ≤ (n : Int) - 1 := by omega
  have h2 : ((n : Int) - 1).toNat = n - 1 := by omega
  simp [forLoop, h1, h2]

theorem mem_renderCloth (cfg : Config) (h : 1 ≤ cfg.CLOTH_SIZE) :
    ∃ quads, ClothRenderer.renderCloth cfg = some quads ∧
      ∀ a, a ∈ quads ↔
        ∃ x y, x < cfg.CLOTH_SIZE - 1 ∧ y < cfg.CLOTH_SIZE - 1 ∧ a ∈ renderClothQuad cfg x y := by
  refine ⟨_, by unfold ClothRenderer.renderCloth; rw [forLoop_pred _ h], ?_⟩
  intro a
  simp only [List.mem_flatMap, List.mem_range]
  constructor
  · rintro ⟨x, hx, y, hy, ha⟩
    exact ⟨x, y, hx, hy, ha⟩
  · rintro ⟨x, y, hx, hy, ha⟩
    exact ⟨x, hx, y, hy, ha⟩

theorem mem_renderClothNormals (cfg : Config) :
    ∃ lines, ClothRenderer.renderClothNormals cfg = some lines ∧
      ∀ a, a ∈ lines ↔
        ∃ x y, x < cfg.CLOTH_SIZE ∧ y < cfg.CLOTH_SIZE ∧ a ∈ renderClothNormalsLine cfg x y := by
  refine ⟨_, by unfold ClothRenderer.renderClothNormals; rw [forLoop_natCast], ?_⟩
  intro a
  simp only [List.mem_flatMap, List.mem_range]
  constructor
  · rintro ⟨x, hx, y, hy, ha⟩
    exact ⟨x, y, hx, hy, ha⟩
  · rintro ⟨x, y, hx, hy, ha⟩
    exact ⟨x, hx, y, hy, ha⟩

theorem index_lt_of_lt (N x y : Nat) (hx : x < N) (hy : y < N) : x * N + y < N * N := by
  have h1 : (x + 1) * N ≤ N * N := Nat.mul_le_mul_right N hx
  rw [Nat.succ_mul] at h1
  omega

/-- While `N * N` fits an `int`, the `int` value of `x * N + y` is the exact one. -/
theorem int_index (N x y : Nat) (hx : x < N) (hy : y < N) (hN : N * N ≤ 2147483647) :
    intAdd (intMul x N) y = ((x * N + y : Nat) : Int) := by
  have h := index_lt_of_lt N x y hx hy
  have hm : ((x : Int) * (N : Int)) = ((x * N : Nat) : Int) := by push_cast; rfl
  have h1 : wrapInt ((x * N : Nat) : Int) = ((x * N : Nat) : Int) :=
    wrapInt_of_fits _ (by omega) (by omega)
  have h2 : wrapInt (((x * N : Nat) : Int) + (y : Int)) = ((x * N : Nat) : Int) + (y : Int) :=
    wrapInt_of_fits _ (by omega) (by omega)
  unfold intAdd intMul
  rw [hm, h1, h2]
  push_cast
  rfl

theorem int_succ (N x : Nat) (hx : x < N) (hN : N * N ≤ 2147483647) :
    intAdd x 1 = ((x + 1 : Nat) : Int) := by
  have h : x + 1 ≤ N * N := by
    have h0 : 0 < N := by omega
    have := Nat.le_mul_of_pos_right N h0
    omega
  have h1 : wrapInt ((x : Int) + 1) = (x : Int) + 1 :=
    wrapInt_of_fits _ (by omega) (by omega)
  unfold intAdd
  rw [h1]
  push_cast
  rfl

theorem int_index_succ (N x y : Nat) (hx : x < N) (hy : y + 1 < N) (hN : N * N ≤ 2147483647) :
    intAdd (intAdd (intMul x N) y) 1 = ((x * N + y + 1 : Nat) : Int) := by
  have h := index_lt_of_lt N x (y + 1) hx hy
  have h1 : wrapInt (((x * N + y : Nat) : Int) + 1) = ((x * N + y : Nat) : Int) + 1 :=
    wrapInt_of_fits _ (by omega) (by omega)
  rw [int_index N x y hx (by omega) hN]
  unfold intAdd
  rw [h1]
  push_cast
  rfl

/-- While `N * N` fits an `int`, the reads of one quad are at the exact indices. -/
theorem renderClothQuad_of_fits (cfg : Config) (x y : Nat) (hx : x < cfg.CLOTH_SIZE - 1)
    (hy : y < cfg.CLOTH_SIZE - 1) (hN : cfg.CLOTH_SIZE * cfg.CLOTH_SIZE ≤ 2147483647) :
    renderClothQuad cfg x y
      = [Access.normals ((x * cfg.CLOTH_SIZE + y : Nat) : Int),
          Access.vertices ((x * cfg.CLOTH_SIZE + y : Nat) : Int),
          Access.normals (((x + 1) * cfg.CLOTH_SIZE + y : Nat) : Int),
          Access.vertices (((x + 1) * cfg.CLOTH_SIZE + y : Nat) : Int),
          Access.normals (((x + 1) * cfg.CLOTH_SIZE + y + 1 : Nat) : Int),
          Access.vertices (((x + 1) * cfg.CLOTH_SIZE + y + 1 : Nat) : Int),
          Access.normals ((x * cfg.CLOTH_SIZE + y + 1 : Nat) : Int),
          Access.vertices ((x * cfg.CLOTH_SIZE + y + 1 : Nat) : Int)] := by
  unfold renderClothQuad
  rw [int_succ cfg.CLOTH_SIZE x (by omega) hN,
    int_index_succ cfg.CLOTH_SIZE (x + 1) y (by omega) (by omega) hN,
    int_index_succ cfg.CLOTH_SIZE x y (by omega) (by omega) hN,
    int_index cfg.CLOTH_SIZE (x + 1) y (by omega) (by omega) hN,
    int_index cfg.CLOTH_SIZE x y (by omega) (by omega) hN]

theorem renderClothNormalsLine_of_fits (cfg : Config) (x y : Nat) (hx : x < cfg.CLOTH_SIZE)
    (hy : y < cfg.CLOTH_SIZE) (hN : cfg.CLOTH_SIZE * cfg.CLOTH_SIZE ≤ 2147483647) :
    renderClothNormalsLine cfg x y
      = [Access.vertices ((x * cfg.CLOTH_SIZE + y : Nat) : Int),
          Access.normals ((x * cfg.CLOTH_SIZE + y : Nat) : Int)] := by
  unfold renderClothNormalsLine
  rw [int_index cfg.CLOTH_SIZE x y hx hy hN]

theorem inBounds_of_index (c : Cloth) (n : Nat) (hres : c.result.length = n)
    (hnrm : c.normalsResult.length = n) (a : Access) (h0 : 0 ≤ a.index)
    (ha : a.index < (n : Int)) : a.inBounds c := by
  cases a with
  | vertices i =>
    unfold Access.inBounds
    rw [hres]
    exact ⟨h0, ha⟩
  | normals i =>
    unfold Access.inBounds
    rw [hnrm]
    exact ⟨h0, ha⟩

/-- C11, counterexample: with `CLOTH_SIZE = 46341` the loops of `renderCloth` reach `x = 46339`,
`y = 41708`, where `(x + 1) * CLOTH_SIZE + y` is `2^31` and does not fit an `int`; the index the
two arrays are read at is `-2^31`, outside every array. -/
theorem C11_int_overflow_counterexample :
    1 ≤ (configWith 46341 9).CLOTH_SIZE ∧
    (46339 + 1) * 46341 + 41708 = 2147483648 ∧
    ∃ quads, ClothRenderer.renderCloth (configWith 46341 9) = some quads ∧
      Access.normals (-2147483648) ∈ quads ∧ Access.vertices (-2147483648) ∈ quads ∧
      ∀ c : Cloth, ¬ (Access.normals (-2147483648)).inBounds c ∧
        ¬ (Access.vertices (-2147483648)).inBounds c := by
  obtain ⟨quads, hq, hmem⟩ := mem_renderCloth (configWith 46341 9) (by decide)
  have hquad : renderClothQuad (configWith 46341 9) 46339 41708
      = [Access.normals 2147437307, Access.vertices 2147437307,
          Access.normals (-2147483648), Access.vertices (-2147483648),
          Access.normals (-2147483647), Access.vertices (-2147483647),
          Access.normals 2147437308, Access.vertices 2147437308] := by
    simp [renderClothQuad, intAdd, intMul, wrapInt, configWith, config]
  refine ⟨by decide, by decide, quads, hq, ?_, ?_, ?_⟩
  · exact (hmem _).2 ⟨46339, 41708, by decide, by decide, by rw [hquad]; simp⟩
  · exact (hmem _).2 ⟨46339, 41708, by decide, by decide, by rw [hquad]; simp⟩
  · intro c
    constructor <;>
    · unfold Access.inBounds
      intro h
      exact absurd h.1 (by decide)

/-- C11, amended: after `Cloth::init`, in every state the program reaches by `step`, `transfer`
and `reset` calls, and in particular after every `Cloth::reset` that returns, the arrays
`result` and `normalsResult` that `getVertices` and `getNormals` return hold exactly `N * N`
elements (`N = CLOTH_SIZE`). For `N >= 1` with `N * N <= 2^31 - 1`, the range in which the `int`
index arithmetic of the renderer does not overflow, the loops of `renderCloth` and
`renderClothNormals` end, `renderCloth` reads the indices `x*N+y`, `(x+1)*N+y`, `(x+1)*N+y+1`,
`x*N+y+1` for `x, y < N - 1` and `renderClothNormals` the indices `x*N+y` for `x, y < N`; each of
them is at least 0 and below `N * N`, so every read falls inside the array it reads. -/
theorem C11_read_back_in_bounds (P : Program) (cfg : Config) (c0 : Cloth)
    (history : List Call) :
    (Cloth.init cfg c0).result.length = cfg.CLOTH_SIZE * cfg.CLOTH_SIZE ∧
    (Cloth.init cfg c0).normalsResult.length = cfg.CLOTH_SIZE * cfg.CLOTH_SIZE ∧
    (∀ c, Cloth.run P cfg history (Cloth.init cfg c0) = Except.ok c →
      c.result.length = cfg.CLOTH_SIZE * cfg.CLOTH_SIZE ∧
      c.normalsResult.length = cfg.CLOTH_SIZE * cfg.CLOTH_SIZE ∧
      (∀ c2, Cloth.reset P cfg c = Except.ok c2 →
        c2.result.length = cfg.CLOTH_SIZE * cfg.CLOTH_SIZE ∧
        c2.normalsResult.length = cfg.CLOTH_SIZE * cfg.CLOTH_SIZE) ∧
      (∀ k : Nat, k % 2 = 1 → cfg.SOLVER_ITERATIONS = (k : Int) →
        ∃ c2, Cloth.reset P cfg c = Except.ok c2)) ∧
    (1 ≤ cfg.CLOTH_SIZE → cfg.CLOTH_SIZE * cfg.CLOTH_SIZE ≤ 2147483647 →
      ∃ quads lines,
        ClothRenderer.renderCloth cfg = some quads ∧
        ClothRenderer.renderClothNormals cfg = some lines ∧
        (∀ a, a ∈ quads ↔
          ∃ x y, x < cfg.CLOTH_SIZE - 1 ∧ y < cfg.CLOTH_SIZE - 1 ∧
            a ∈ [Access.normals ((x * cfg.CLOTH_SIZE + y : Nat) : Int),
              Access.vertices ((x * cfg.CLOTH_SIZE + y : Nat) : Int),
              Access.normals (((x + 1) * cfg.CLOTH_SIZE + y : Nat) : Int),
              Access.vertices (((x + 1) * cfg.CLOTH_SIZE + y : Nat) : Int),
              Access.normals (((x + 1) * cfg.CLOTH_SIZE + y + 1 : Nat) : Int),
              Access.vertices (((x + 1) * cfg.CLOTH_SIZE + y + 1 : Nat) : Int),
              Access.normals ((x * cfg.CLOTH_SIZE + y + 1 : Nat) : Int),
              Access.vertices ((x * cfg.CLOTH_SIZE + y + 1 : Nat) : Int)]) ∧
        (∀ a, a ∈ lines ↔
          ∃ x y, x < cfg.CLOTH_SIZE ∧ y < cfg.CLOTH_SIZE ∧
            a ∈ [Access.vertices ((x * cfg.CLOTH_SIZE + y : Nat) : Int),
              Access.normals ((x * cfg.CLOTH_SIZE + y : Nat) : Int)]) ∧
        (∀ a, a ∈ quads ∨ a ∈ lines →
          0 ≤ a.index ∧ a.index < ((cfg.CLOTH_SIZE * cfg.CLOTH_SIZE : Nat) : Int)) ∧
        (∀ c, Cloth.run P cfg history (Cloth.init cfg c0) = Except.ok c →
          (∀ a, a ∈ quads ∨ a ∈ lines → a.inBounds c) ∧
          ∀ c2, Cloth.reset P cfg c = Except.ok c2 →
            ∀ a, a ∈ quads ∨ a ∈ lines → a.inBounds c2)) := by
  have hinit := init_host_length cfg c0
  have hrun := fun c h => run_host_length P cfg history (Cloth.init cfg c0) c hinit h
  refine ⟨hinit.1, hinit.2, ?_, ?_⟩
  · intro c hc1
    obtain ⟨r1, r2⟩ := hrun c hc1
    refine ⟨r1, r2, fun c2 h2 => reset_host_length P cfg c c2 h2, ?_⟩
    intro k hodd hk
    exact reset_ok P cfg c (by rw [hk]; exact tmod_natCast_odd k hodd)
  · intro h1 hN
    obtain ⟨quads, hq, hqm⟩ := mem_renderCloth cfg h1
    obtain ⟨lines, hl, hlm⟩ := mem_renderClothNormals cfg
    have hquads : ∀ a, a ∈ quads ↔
        ∃ x y, x < cfg.CLOTH_SIZE - 1 ∧ y < cfg.CLOTH_SIZE - 1 ∧
          a ∈ [Access.normals ((x * cfg.CLOTH_SIZE + y : Nat) : Int),
            Access.vertices ((x * cfg.CLOTH_SIZE + y : Nat) : Int),
            Access.normals (((x + 1) * cfg.CLOTH_SIZE + y : Nat) : Int),
            Access.vertices (((x + 1) * cfg.CLOTH_SIZE + y : Nat) : Int),
            Access.normals (((x + 1) * cfg.CLOTH_SIZE + y + 1 : Nat) : Int),
            Access.vertices (((x + 1) * cfg.CLOTH_SIZE + y + 1 : Nat) : Int),
            Access.normals ((x * cfg.CLOTH_SIZE + y + 1 : Nat) : Int),
            Access.vertices ((x * cfg.CLOTH_SIZE + y + 1 : Nat) : Int)] := by
      intro a
      rw [hqm a]
      constructor
      · rintro ⟨x, y, hx, hy, ha⟩
        rw [renderClothQuad_of_fits cfg x y hx hy hN] at ha
        exact ⟨x, y, hx, hy, ha⟩
      · rintro ⟨x, y, hx, hy, ha⟩
        rw [← renderClothQuad_of_fits cfg x y hx hy hN] at ha
        exact ⟨x, y, hx, hy, ha⟩
    have hlines : ∀ a, a ∈ lines ↔
        ∃ x y, x < cfg.CLOTH_SIZE ∧ y < cfg.CLOTH_SIZE ∧
          a ∈ [Access.vertices ((x * cfg.CLOTH_SIZE + y : Nat) : Int),
            Access.normals ((x * cfg.CLOTH_SIZE + y : Nat) : Int)] := by
      intro a
      rw [hlm a]
      constructor
      · rintro ⟨x, y, hx, hy, ha⟩
        rw [renderClothNormalsLine_of_fits cfg x y hx hy hN] at ha
        exact ⟨x, y, hx, hy, ha⟩
      · rintro ⟨x, y, hx, hy, ha⟩
        rw [← renderClothNormalsLine_of_fits cfg x y hx hy hN] at ha
        exact ⟨x, y, hx, hy, ha⟩
    have hindex : ∀ a, a ∈ quads ∨ a ∈ lines →
        0 ≤ a.index ∧ a.index < ((cfg.CLOTH_SIZE * cfg.CLOTH_SIZE : Nat) : Int) := by
      intro a ha
      rcases ha with ha | ha
      · obtain ⟨x, y, hx, hy, hm⟩ := (hquads a).1 ha
        have h00 := index_lt_of_lt cfg.CLOTH_SIZE x y (by omega) (by omega)
        have h10 := index_lt_of_lt cfg.CLOTH_SIZE (x + 1) y (by omega) (by omega)
        have h11 := index_lt_of_lt cfg.CLOTH_SIZE (x + 1) (y + 1) (by omega) (by omega)
        have h01 := index_lt_of_lt cfg.CLOTH_SIZE x (y + 1) (by omega) (by omega)
        simp only [List.mem_cons, List.mem_singleton, List.not_mem_nil, or_false] at hm
        rcases hm with h | h | h | h | h | h | h | h <;> subst h <;>
          simp only [Access.index] <;> omega
      · obtain ⟨x, y, hx, hy, hm⟩ := (hlines a).1 ha
        have h00 := index_lt_of_lt cfg.CLOTH_SIZE x y hx hy
        simp only [List.mem_cons, List.mem_singleton, List.not_mem_nil, or_false] at hm
        rcases hm with h | h <;> subst h <;> simp only [Access.index] <;> omega
    refine ⟨quads, lines, hq, hl, hquads, hlines, hindex, ?_⟩
    intro c hc1
    obtain ⟨r1, r2⟩ := hrun c hc1
    refine ⟨fun a ha => inBounds_of_index c _ r1 r2 a (hindex a ha).1 (hindex a ha).2, ?_⟩
    intro c2 h2 a ha
    obtain ⟨s1, s2⟩ := reset_host_length P cfg c c2 h2
    exact inBounds_of_index c2 _ s1 s2 a (hindex a ha).1 (hindex a ha).2

/-! ## The layout in `float` arithmetic -/

theorem vertexX32_config32_zero : vertexX32 config32 0 = ⟨-16043213, -20⟩ := by decide

theorem startX_config32 : config32.CLOTH_START_X = ⟨11744051, -24⟩ := by decide

theorem scale_config32 : config32.CLOTH_SCALE = ⟨8388608, -18⟩ := by decide

theorem initLoop32_get? (cfg : FloatConfig) (v : List cl_float4) (n i : Nat) (h : i < n) :
    (initLoop32 cfg (resize v n)).get? i = some (vertex32 cfg i) := by
  unfold initLoop32
  rw [foldl_set_range _ _ _ (le_refl _), length_resize, List.get?_eq_getElem?,
    List.getElem?_append_left (by simpa using h)]
  simp [List.getElem?_range h]

/-- C4, counterexample: with the constants of `config.h` the loop of `Cloth::init` stores in
`result[0].s[0]` the `float` -16043213 / 2^20, the rounded sum of -16 and `0.7f`. The formula of
the claim gives -256691405 / 2^24 with `0.7f` at its `float` value and -153/10 with the decimal
0.7: the stored value is neither. -/
theorem C4_float_counterexample :
    (initLoop32 config32 (resize [] (128 * 128))).get? 0 = some (vertex32 config32 0) ∧
    (vertex32 config32 0).s0 = -16043213 / 1048576 ∧
    config32.CLOTH_START_X.toRat = 11744051 / 16777216 ∧
    config32.CLOTH_SCALE.toRat = 32 ∧
    ((0 % 128 : Nat) : ℚ) / (128 : ℚ) * 32 - 32 / 2 + 11744051 / 16777216
      = -256691405 / 16777216 ∧
    (vertex config32.exact 0).s0 = -256691405 / 16777216 ∧
    (vertex config 0).s0 = -153 / 10 ∧
    (vertex32 config32 0).s0 ≠ (vertex config32.exact 0).s0 ∧
    (vertex32 config32 0).s0 ≠ (vertex config 0).s0 := by
  have h1 : (vertex32 config32 0).s0 = -16043213 / 1048576 := by
    simp only [vertex32, vertexX32_config32_zero, Binary32.toRat]
    norm_num
  have h2 : config32.CLOTH_START_X.toRat = 11744051 / 16777216 := by
    rw [startX_config32]
    simp only [Binary32.toRat]
    norm_num
  have h3 : config32.CLOTH_SCALE.toRat = 32 := by
    rw [scale_config32]
    simp only [Binary32.toRat]
    norm_num
  have h4 : (vertex config32.exact 0).s0 = -256691405 / 16777216 := by
    simp only [vertex, FloatConfig.exact, h2, h3]
    norm_num [config32]
  have h5 : (vertex config 0).s0 = -153 / 10 := by
    norm_num [vertex, config]
  refine ⟨initLoop32_get? config32 [] (128 * 128) 0 (by decide), h1, h2, h3, by norm_num, h4,
    h5, ?_, ?_⟩
  · rw [h1, h4]
    norm_num
  · rw [h1, h5]
    norm_num

/-- In `float` arithmetic the spacing of the example scenario is not 3/4 everywhere: particles 2
and 3 are stored 3/4 + 2^-24 apart in x, particles 8 and 12 the same in y, while particles 0 and
1 are exactly 3/4 apart. -/
theorem float_spacing_scenario :
    (vertex32 scenario32 1).s0 - (vertex32 scenario32 0).s0 = 3 / 4 ∧
    (vertex32 scenario32 3).s0 - (vertex32 scenario32 2).s0 = 3 / 4 + 1 / 16777216 ∧
    (vertex32 scenario32 12).s1 - (vertex32 scenario32 8).s1 = 3 / 4 + 1 / 16777216 := by
  have x0 : vertexX32 scenario32 0 = ⟨-13421773, -24⟩ := by decide
  have x1 : vertexX32 scenario32 1 = ⟨-13421776, -28⟩ := by decide
  have x2 : vertexX32 scenario32 2 = ⟨11744051, -24⟩ := by decide
  have x3 : vertexX32 scenario32 3 = ⟨12163482, -23⟩ := by decide
  have y8 : vertexY32 scenario32 8 = ⟨11744051, -24⟩ := by decide
  have y12 : vertexY32 scenario32 12 = ⟨12163482, -23⟩ := by decide
  refine ⟨?_, ?_, ?_⟩
  · simp only [vertex32, x0, x1, Binary32.toRat]
    norm_num
  · simp only [vertex32, x2, x3, Binary32.toRat]
    norm_num
  · simp only [vertex32, y8, y12, Binary32.toRat]
    norm_num

end ClCloth
